import Mathlib

/-!
Verification of the conversational-agent orchestration layer of the
ai-consulting-registration repository.

The development shallowly embeds the following source files:

* `src/agent/intake-agent.ts` — the anonymous intake agent loop, its
  in-memory session registry, completeness scoring and TTL sweep
  (namespace `Intake`);
* `src/agent/agent.ts` — the authenticated interview agent loop and its
  PRD document persistence (namespace `Interview`);
* `src/agent/prompts/intake-system.ts` and
  `src/agent/prompts/system.ts` — section-key enumerations and system
  prompts;
* `src/socket.ts` — the transport bridge: the `intakeStart`,
  `intakeMessage`, `chatMessage`/`handleUserMessage` and `disconnect`
  handlers, per-IP admission control and the in-memory server maps
  (namespace `Sock`).

Modelling conventions:

* JavaScript `Map`s become association lists with `Map.set` replace-or-append
  semantics (`mget`/`mset`/`mdel`); plain objects used as string-keyed
  records become association lists with spread-update semantics (`objSet`).
* Timestamps (`Date.now()`) are natural numbers of milliseconds.  JS
  computes `now - last > TTL` with possibly negative differences; with
  truncated `Nat` subtraction both sides agree whenever `last > now`
  (both yield "not expired"), so `Nat` is faithful here.
* The streaming language-model backend is an oracle `Nat → ModelResp`
  giving, per loop iteration, either a thrown error (possibly after some
  streamed deltas) or the stream of deltas.  Deltas carry optional content
  and index-addressed tool-call fragments exactly as the source consumes
  them.
* `JSON.parse` of a streamed argument string is an uninterpreted pure
  function `ArgsParse := String → Option ArgsMap`; `none` models a parse
  failure (the source catches it and substitutes `{}`).  Decoded JSON
  values are modelled by `JVal`, which records exactly what the source
  inspects: whether the value is a string, its JS truthiness, and its
  string coercion.
* `Math.round(x)` for the completeness percentage is round-half-up.  For
  the two totals that occur (4 and 13) the double-precision product
  `(filled/total)*100` is never within `10⁻¹²` of a half-integer, so the
  floating-point `Math.round((filled/total)*100)` agrees with exact
  rational rounding, which is what `jsRoundPct` computes.
-/

/-- JS `Map.get` over an association list. -/
def mget {α β : Type} [BEq α] (m : List (α × β)) (k : α) : Option β :=
  (m.find? (fun p => p.1 == k)).map (·.2)

/-- JS `Map.set`: replace the value in place if the key exists, else append. -/
def mset {α β : Type} [BEq α] (m : List (α × β)) (k : α) (v : β) : List (α × β) :=
  if m.any (fun p => p.1 == k) then
    m.map (fun p => if p.1 == k then (k, v) else p)
  else m ++ [(k, v)]

/-- JS `Map.delete`. -/
def mdel {α β : Type} [BEq α] (m : List (α × β)) (k : α) : List (α × β) :=
  m.filter (fun p => !(p.1 == k))

/-- JS object lookup `obj[k]` for a string-keyed record. -/
def objGet (m : List (String × String)) (k : String) : Option String :=
  (m.find? (fun p => p.1 == k)).map (·.2)

/-- JS spread update `\x7b...obj, [k]: v\x7d`: overwrite in place, or append a new key. -/
def objSet (m : List (String × String)) (k v : String) : List (String × String) :=
  if m.any (fun p => p.1 == k) then
    m.map (fun p => if p.1 == k then (k, v) else p)
  else m ++ [(k, v)]

/-- A decoded JSON value, recording only what the source inspects:
string-ness, JS truthiness, and string coercion. -/
inductive JVal
  | jstr (s : String)
  | jarr (elems : List String)
  | jother (truthy : Bool) (text : String)
deriving DecidableEq, Repr

/-- JS truthiness of a decoded value (`'' `is falsy, arrays are truthy). -/
def JVal.truthy : JVal → Bool
  | .jstr s => s != ""
  | .jarr _ => true
  | .jother t _ => t

/-- JS string coercion of a decoded value. -/
def JVal.toText : JVal → String
  | .jstr s => s
  | .jarr l => String.intercalate "," l
  | .jother _ r => r

/-- The loosely typed `Record<string, unknown>` produced by `JSON.parse`. -/
abbrev ArgsMap := List (String × JVal)

/-- Property access `args[k]`. -/
def argGet (a : ArgsMap) (k : String) : Option JVal := mget a k

/-- The semantics of `(args.x as string) || ''`. -/
def jsOrEmptyString : Option JVal → String
  | some v => if v.truthy then v.toText else ""
  | none => ""

/-- The semantics of `(args.x as string[]) || []`. -/
def jsOrEmptyArr : Option JVal → JVal
  | some v => if v.truthy then v else .jarr []
  | none => .jarr []

/-- `JSON.parse` with the surrounding `try/catch`, kept abstract: `none`
models a parse failure (the source substitutes the empty record). -/
abbrev ArgsParse := String → Option ArgsMap

/-- JS `String.prototype.trim`, written over the character list so that
it evaluates inside the kernel (`String.trim` itself does not).  The
whitespace set is `Char.isWhitespace`; the JS set additionally holds
exotic Unicode spaces, which never occur in the enumerated keys and only
affect which exotic blanks count as "empty", not the logic. -/
def jsTrim (s : String) : String :=
  ⟨((s.data.dropWhile Char.isWhitespace).reverse.dropWhile Char.isWhitespace).reverse⟩

/-- The string-escaping part of `JSON.stringify` on a string value. -/
def jsonEscape (s : String) : String :=
  String.join (s.toList.map (fun c =>
    if c = '\\' then "\\\\" else if c = '"' then "\\\"" else String.singleton c))

/-- `JSON.stringify` of an array of strings. -/
def jsonStrArray (l : List String) : String :=
  "[" ++ String.intercalate "," (l.map (fun s => "\"" ++ jsonEscape s ++ "\"")) ++ "]"

/-- `Math.round((filled / total) * 100)` as exact round-half-up rational
rounding: `⌊(200·filled + total) / (2·total)⌋` over the naturals. -/
def jsRoundPct (filled total : Nat) : Nat := (200 * filled + total) / (2 * total)

/-- A resolved (or still accumulating) streamed tool call:
`\x7bid, function: \x7bname, arguments\x7d\x7d`. -/
structure RawCall where
  id : String
  name : String
  arguments : String
deriving DecidableEq, Repr

/-- A chat-completion message as the source builds them. -/
inductive ChatMsg
  | system (content : String)
  | user (content : String)
  | assistant (content : Option String) (tool_calls : List RawCall)
  | tool (tool_call_id : String) (content : String)
deriving DecidableEq, Repr

/-- A tool-call fragment of one stream delta, keyed by its stream index.
Absent fields are the empty string (both `undefined` and `''` are falsy
at every use site). -/
structure ToolCallFrag where
  index : Nat
  id : String := ""
  name : String := ""
  arguments : String := ""
deriving DecidableEq, Repr

/-- One stream chunk's `delta`: optional content plus tool-call fragments. -/
structure StreamDelta where
  content : Option String := none
  tool_calls : List ToolCallFrag := []
deriving DecidableEq, Repr

/-- The `while (toolCallsRaw.length <= tc.index) push(empty)` growth step. -/
def padCalls (l : List RawCall) (n : Nat) : List RawCall :=
  l ++ List.replicate (n + 1 - l.length) { id := "", name := "", arguments := "" }

/-- Merging one tool-call fragment into the sparse accumulator:
`id` is assigned when truthy, `name` and `arguments` are appended. -/
def applyFrag (l : List RawCall) (f : ToolCallFrag) : List RawCall :=
  let l' := padCalls l f.index
  let old := l'.getD f.index { id := "", name := "", arguments := "" }
  l'.set f.index
    { id := if f.id != "" then f.id else old.id,
      name := old.name ++ f.name,
      arguments := old.arguments ++ f.arguments }

/-- Consuming one stream delta: truthy content is appended, tool-call
fragments are merged in order. -/
def applyDelta (acc : String × List RawCall) (d : StreamDelta) : String × List RawCall :=
  let acc1 : String × List RawCall :=
    match d.content with
    | some s => if s != "" then (acc.1 ++ s, acc.2) else acc
    | none => acc
  (acc1.1, d.tool_calls.foldl applyFrag acc1.2)

/-- The full `for await (const chunk of response)` accumulation:
final plain-text content and the accumulated tool-call array. -/
def consumeStream (ds : List StreamDelta) : String × List RawCall :=
  ds.foldl applyDelta ("", [])

/-- The content increments forwarded to `onStream` while consuming, in order. -/
def contentChunks (ds : List StreamDelta) : List String :=
  ds.filterMap (fun d =>
    match d.content with
    | some s => if s != "" then some s else none
    | none => none)

/-- One backend call's outcome: a thrown error (after possibly streaming
some deltas) or the complete delta stream. -/
inductive ModelResp
  | failure (streamedSoFar : List StreamDelta)
  | ok (deltas : List StreamDelta)
deriving DecidableEq, Repr

/-- The nondeterministic backend, indexed by loop iteration within a turn. -/
abbrev Oracle := Nat → ModelResp

/-- The termination test of both agent loops:
`toolCallsRaw.length === 0 || toolCallsRaw.every(tc => !tc.function.name)`. -/
def noNamedCalls (raw : List RawCall) : Bool :=
  raw.isEmpty || raw.all (fun tc => tc.name == "")

namespace Intake

/-- `MAX_TOOL_ITERATIONS` of `intake-agent.ts`. -/
def MAX_TOOL_ITERATIONS : Nat := 3

/-- `SESSION_TTL_MS` (5 minutes). -/
def SESSION_TTL_MS : Nat := 5 * 60 * 1000

/-- The fixed `setInterval` period of the stale-session sweep (60 s). -/
def SWEEP_INTERVAL_MS : Nat := 60000

/-- The structured intake document (`IntakeData`). -/
structure IntakeData where
  background : String := ""
  currentState : String := ""
  painPoints : String := ""
  expectedOutcome : String := ""
deriving DecidableEq, Repr

/-- The canonical key enumeration of `INTAKE_FIELDS` (also the `validKeys`
list of the `update_intake` dispatcher). -/
def INTAKE_KEYS : List String :=
  ["background", "currentState", "painPoints", "expectedOutcome"]

/-- The field labels of `INTAKE_FIELDS`, used by the system prompt. -/
def INTAKE_FIELD_LABELS : List (String × String) :=
  [("background", "公司/團隊背景"), ("currentState", "現況工作方式"),
   ("painPoints", "具體痛點"), ("expectedOutcome", "期望改善")]

/-- `data[k]` for a known key. -/
def IntakeData.get (d : IntakeData) : String → String
  | "background" => d.background
  | "currentState" => d.currentState
  | "painPoints" => d.painPoints
  | "expectedOutcome" => d.expectedOutcome
  | _ => ""

/-- `data[k] = v` for a known key. -/
def IntakeData.set (d : IntakeData) (k v : String) : IntakeData :=
  if k = "background" then { d with background := v }
  else if k = "currentState" then { d with currentState := v }
  else if k = "painPoints" then { d with painPoints := v }
  else if k = "expectedOutcome" then { d with expectedOutcome := v }
  else d

/-- `emptyIntakeData`. -/
def emptyIntakeData : IntakeData := {}

/-- The filled-field count of `calcCompleteness`:
`INTAKE_FIELDS.filter(f => data[f.key]?.trim().length > 0).length`. -/
def filledCount (d : IntakeData) : Nat :=
  (INTAKE_KEYS.filter (fun k => jsTrim (d.get k) != "")).length

/-- `calcCompleteness` of `intake-agent.ts`:
`Math.round((filled.length / INTAKE_FIELDS.length) * 100)`. -/
def calcCompleteness (d : IntakeData) : Nat :=
  jsRoundPct (filledCount d) INTAKE_KEYS.length

/-- An in-memory intake session record. -/
structure IntakeSession where
  messages : List ChatMsg
  data : IntakeData
  isComplete : Bool
  summary : String
  turnCount : Nat
  lastActivity : Nat
deriving DecidableEq, Repr

/-- `createIntakeSession` (the stored fresh record). -/
def freshSession (now : Nat) : IntakeSession :=
  { messages := [], data := emptyIntakeData, isComplete := false,
    summary := "", turnCount := 0, lastActivity := now }

/-- The return value of `runIntakeAgent`. -/
structure IntakeAgentResult where
  reply : String
  data : IntakeData
  isComplete : Bool
  summary : String
  completeness : Nat
deriving DecidableEq, Repr

/-- `buildIntakeSystemPrompt`: the guidance template with the current
filled/missing field labels spliced in. -/
def buildIntakeSystemPrompt (d : IntakeData) : String :=
  let filled := INTAKE_FIELD_LABELS.filter (fun f => jsTrim (d.get f.1) != "")
  let missing := INTAKE_FIELD_LABELS.filter (fun f => !(jsTrim (d.get f.1) != ""))
  "你是一位友善的 AI 前期需求收集助手。你的任務是在訪客報名前，透過輕鬆的對話幫助他們釐清自己的問題與需求。\n\n" ++
  "## 你的角色\n- 你**不是**正式顧問，而是幫忙「想清楚」的助手\n- 語氣親切、鼓勵，像朋友聊天\n- 用繁體中文交流\n\n" ++
  "## 需要收集的 4 個結構化欄位\n1. **background** — 公司/團隊背景（做什麼的、多大規模、產業）\n" ++
  "2. **currentState** — 現在的工作方式（用什麼工具、流程長什麼樣）\n" ++
  "3. **painPoints** — 具體痛點（哪裡卡、花多少時間、造成什麼問題）\n" ++
  "4. **expectedOutcome** — 期望的改善（理想狀態、量化目標）\n\n" ++
  "## 引導規則\n1. **每次只問一個問題**，不要一次丟多個問題\n2. **從痛點切入**：先問「最困擾的是什麼？」\n" ++
  "3. **追問要具體化**：把模糊描述收斂成具體場景\n   - 模糊：「報表很慢」→ 追問：「大概花多少時間？是每天都要做嗎？」\n" ++
  "4. **3-5 輪對話就要收斂**，不要無止盡地問\n5. **每次回覆都要先回應對方說的內容**，再引導下一個問題\n" ++
  "6. **適時使用 update_intake 工具**更新結構化內容\n7. 當 4 個欄位都有足夠內容時，呼叫 **mark_complete** 結束\n\n" ++
  "## 目前收集狀態\n- 已填入：" ++
  (if filled.length > 0 then String.intercalate "、" (filled.map (·.2)) else "（尚無）") ++
  "\n- 待填入：" ++
  (if missing.length > 0 then String.intercalate "、" (missing.map (·.2)) else "（全部完成）") ++
  "\n\n## 注意事項\n- 回覆簡短（2-3 句），不要長篇大論\n- 不要假設訪客的情況，多問多聽\n" ++
  "- 如果訪客的描述已經很清楚，直接 update_intake 不用再追問同一個欄位"

/-- The `update_intake` result payload `JSON.stringify(\x7bsuccess, updated, completeness\x7d)`. -/
def updateResult (updated : List String) (completeness : Nat) : String :=
  "\x7b\"success\":true,\"updated\":" ++ jsonStrArray updated ++
  ",\"completeness\":" ++ toString completeness ++ "\x7d"

/-- The `mark_complete` result payload. -/
def completeResult (summary : String) : String :=
  "\x7b\"success\":true,\"summary\":\"" ++ jsonEscape summary ++ "\"\x7d"

/-- The unknown-tool error payload. -/
def unknownToolResult (name : String) : String :=
  "\x7b\"error\":\"Unknown tool: " ++ jsonEscape name ++ "\"\x7d"

/-- The `update_intake` write loop: for each key of `validKeys`, write it
when the argument is a truthy string, collecting the written keys. -/
def applyUpdate (d : IntakeData) (args : ArgsMap) : IntakeData × List String :=
  INTAKE_KEYS.foldl
    (fun acc k =>
      match argGet args k with
      | some (.jstr s) => if s != "" then (acc.1.set k s, acc.2 ++ [k]) else acc
      | _ => acc)
    (d, [])

/-- One step of the intake tool dispatcher (`intake-agent.ts` lines
160–195), acting on the session and producing the tool-result messages
appended to the model context (empty for an unnamed placeholder entry). -/
def execCall (parse : ArgsParse) (s : IntakeSession) (tc : RawCall) :
    IntakeSession × List ChatMsg :=
  if tc.name == "" then (s, [])
  else
    let args := (parse tc.arguments).getD []
    if tc.name == "update_intake" then
      let pr := applyUpdate s.data args
      ({ s with data := pr.1 },
       [ChatMsg.tool tc.id (updateResult pr.2 (calcCompleteness pr.1))])
    else if tc.name == "mark_complete" then
      let summ := jsOrEmptyString (argGet args "summary")
      ({ s with isComplete := true, summary := summ },
       [ChatMsg.tool tc.id (completeResult summ)])
    else
      (s, [ChatMsg.tool tc.id (unknownToolResult tc.name)])

/-- The full tool-execution loop of one iteration, in array order. -/
def execCalls (parse : ArgsParse) (s : IntakeSession) (calls : List RawCall) :
    IntakeSession × List ChatMsg :=
  calls.foldl
    (fun acc tc =>
      let r := execCall parse acc.1 tc
      (r.1, acc.2 ++ r.2))
    (s, [])

/-- The fixed fallback reply returned when `MAX_TOOL_ITERATIONS` is exhausted. -/
def fallbackReply : String := "讓我整理一下您說的內容..."

/-- Building an `IntakeAgentResult` from the current session state. -/
def mkResult (reply : String) (s : IntakeSession) : IntakeAgentResult :=
  { reply := reply, data := s.data, isComplete := s.isComplete,
    summary := s.summary, completeness := calcCompleteness s.data }

/-- The assistant context message pushed before tool execution:
`content || null` plus the name-filtered resolved tool calls. -/
def assistantCtxMsg (content : String) (raw : List RawCall) : ChatMsg :=
  ChatMsg.assistant (if content != "" then some content else none)
    (raw.filter (fun tc => tc.name != ""))

/-- The iteration loop of `runIntakeAgent`.  Arguments after the oracle:
remaining fuel, current iteration index, session, model context, user
message.  Returns the session (with whatever mutations were committed),
the streamed chunks, and the result — `none` when the backend call threw. -/
def loop (parse : ArgsParse) (oracle : Oracle) (userMessage : String) :
    Nat → Nat → IntakeSession → List ChatMsg →
    IntakeSession × List String × Option IntakeAgentResult
  | 0, _, s, _ =>
    let s' := { s with messages := s.messages ++
      [ChatMsg.user userMessage, ChatMsg.assistant (some fallbackReply) []] }
    (s', [], some (mkResult fallbackReply s'))
  | fuel + 1, i, s, msgs =>
    match oracle i with
    | .failure ds => (s, contentChunks ds, none)
    | .ok ds =>
      let content := (consumeStream ds).1
      let raw := (consumeStream ds).2
      if noNamedCalls raw then
        let s' := { s with messages := s.messages ++
          [ChatMsg.user userMessage, ChatMsg.assistant (some content) []] }
        (s', contentChunks ds, some (mkResult content s'))
      else
        let ex := execCalls parse s raw
        let rest := loop parse oracle userMessage fuel (i + 1) ex.1
          (msgs ++ [assistantCtxMsg content raw] ++ ex.2)
        (rest.1, contentChunks ds ++ rest.2.1, rest.2.2)

/-- `runIntakeAgent` on a session value (the found session): refresh
`lastActivity`, increment `turnCount`, build the context and run the loop. -/
def runCore (parse : ArgsParse) (oracle : Oracle) (now : Nat)
    (s : IntakeSession) (userMessage : String) :
    IntakeSession × List String × Option IntakeAgentResult :=
  let s0 := { s with lastActivity := now, turnCount := s.turnCount + 1 }
  let msgs := [ChatMsg.system (buildIntakeSystemPrompt s0.data)] ++
    s0.messages ++ [ChatMsg.user userMessage]
  loop parse oracle userMessage MAX_TOOL_ITERATIONS 0 s0 msgs

/-- `runIntakeAgent` on the registry: look the session up by client id
(`none` also models the `Intake session not found` throw) and write the
mutated session back, as the in-place mutation of the source does. -/
def runIntakeAgent (parse : ArgsParse) (oracle : Oracle) (now : Nat)
    (reg : List (String × IntakeSession)) (clientId userMessage : String) :
    List (String × IntakeSession) × List String × Option IntakeAgentResult :=
  match mget reg clientId with
  | none => (reg, [], none)
  | some s =>
    let r := runCore parse oracle now s userMessage
    (mset reg clientId r.1, r.2.1, r.2.2)

/-- `getIntakeSession`: a successful lookup refreshes `lastActivity`. -/
def getIntakeSession (reg : List (String × IntakeSession)) (clientId : String)
    (now : Nat) : List (String × IntakeSession) × Option IntakeSession :=
  match mget reg clientId with
  | none => (reg, none)
  | some s =>
    let s' := { s with lastActivity := now }
    (mset reg clientId s', some s')

/-- The body of the 60-second `setInterval` sweep: delete every session
whose idle time exceeds the TTL. -/
def sweep (now : Nat) (reg : List (String × IntakeSession)) :
    List (String × IntakeSession) :=
  reg.filter (fun p => !(decide (now - p.2.lastActivity > SESSION_TTL_MS)))

end Intake

namespace Interview

/-- `MAX_TOOL_ITERATIONS` of `agent.ts`. -/
def MAX_TOOL_ITERATIONS : Nat := 5

/-- The canonical PRD section-key enumeration `PRD_SECTION_KEYS`. -/
def PRD_SECTION_KEYS : List String :=
  ["background", "users", "scope", "asIs", "toBe",
   "userStories", "acceptance", "dataModel", "permissions",
   "nonFunctional", "kpi", "risks", "mvpScope"]

/-- The section labels used by `sectionsToMarkdown` (and `PRD_SECTION_LABELS`). -/
def sectionLabel : String → String
  | "background" => "背景與目標"
  | "users" => "使用者與情境"
  | "scope" => "需求範圍"
  | "asIs" => "現況流程（AS-IS）"
  | "toBe" => "目標流程（TO-BE）"
  | "userStories" => "功能需求"
  | "acceptance" => "驗收標準"
  | "dataModel" => "資料與欄位"
  | "permissions" => "權限與角色"
  | "nonFunctional" => "非功能需求"
  | "kpi" => "成功指標"
  | "risks" => "風險與依賴"
  | "mvpScope" => "MVP 切分建議"
  | _ => ""

/-- The filled test of `calcCompleteness`:
`sections[k] && sections[k]!.trim().length > 0`. -/
def sectionFilled (sections : List (String × String)) (k : String) : Bool :=
  match objGet sections k with
  | some v => v != "" && jsTrim v != ""
  | none => false

/-- The filled-section count over the canonical enumeration. -/
def filledCount (sections : List (String × String)) : Nat :=
  (PRD_SECTION_KEYS.filter (fun k => sectionFilled sections k)).length

/-- `calcCompleteness` of `agent.ts`:
`Math.round((filled.length / PRD_SECTION_KEYS.length) * 100)`. -/
def calcCompleteness (sections : List (String × String)) : Nat :=
  jsRoundPct (filledCount sections) PRD_SECTION_KEYS.length

/-- `sectionsToMarkdown`: the non-empty sections in canonical order, each
rendered as a labelled heading block, joined by rules. -/
def sectionsToMarkdown (sections : List (String × String)) : String :=
  String.intercalate "\n\n---\n\n"
    ((PRD_SECTION_KEYS.filter (fun k => sectionFilled sections k)).map
      (fun k => "## " ++ sectionLabel k ++ "\n\n" ++ ((objGet sections k).getD "")))

/-- `buildSystemPrompt` of `prompts/system.ts`: consultant guidance with
the lead context and the filled/missing section keys spliced in.  The
filled list follows the insertion order of the sections record. -/
def buildSystemPrompt (leadContext : String) (sections : List (String × String)) : String :=
  let filledSections := (sections.filter (fun p => p.2 != "" && jsTrim p.2 != "")).map (·.1)
  let missingSections := PRD_SECTION_KEYS.filter (fun k => !(filledSections.contains k))
  "你是一位資深 AI 輔能諮詢顧問。你的任務是透過一對一訪談，引導企業客戶釐清需求，最終產出一份完整的 PRD（產品需求文件）。\n\n" ++
  "## 引導規則\n1. **先收斂範圍再擴張**：先問最小 MVP，避免一開始就天馬行空\n" ++
  "2. **追問以「可驗收」為終點**：每個功能補齊「輸入→處理→輸出→例外→權限→驗收」\n" ++
  "3. **缺口偵測**：PRD 欄位空白即追問\n4. **用報名表做先驗**：把報名表內容當作上下文，減少重複問\n" ++
  "5. **自然對話**：像一位經驗豐富的顧問與客戶聊天，不要像問卷調查\n" ++
  "6. **每次回覆**：先簡短回應客戶說的內容，再引導下一個問題\n\n" ++
  "## 客戶報名資訊（上下文）\n" ++ leadContext ++ "\n\n" ++
  "## PRD 結構（你要逐步填滿這些欄位）\n1. background — 背景與目標（問題、為什麼現在要做）\n" ++
  "2. users — 使用者與情境（角色、場景、頻率）\n3. scope — 需求範圍（In/Out of Scope）\n" ++
  "4. asIs — 現況流程（AS-IS）與痛點\n5. toBe — 目標流程（TO-BE）與規則\n" ++
  "6. userStories — 功能需求（User Stories）\n7. acceptance — 驗收標準（Acceptance Criteria）\n" ++
  "8. dataModel — 資料與欄位（ERD/表單/輸入輸出）\n9. permissions — 權限與角色\n" ++
  "10. nonFunctional — 非功能需求（效能、資安、稽核）\n11. kpi — 成功指標（KPI）\n" ++
  "12. risks — 風險與依賴\n13. mvpScope — MVP 切分建議（30~60 分鐘產出必備）\n\n" ++
  "## 目前 PRD 狀態\n- 已填入：" ++
  (if filledSections.length > 0 then String.intercalate ", " filledSections else "（尚無）") ++
  "\n- 待填入：" ++
  (if missingSections.length > 0 then String.intercalate ", " missingSections else "（全部完成）") ++
  "\n\n## 工具使用指引\n- 當你從對話中收集到足夠資訊可填入某個 PRD 欄位時，呼叫 update_prd_section 工具\n" ++
  "- 當你發現需要追問客戶才能補齊缺口時，直接在回覆中提問即可\n" ++
  "- 每 3-5 輪對話後，主動呼叫 summarize_conversation 整理重點\n\n" ++
  "## 對話風格\n- 使用繁體中文\n- 親切專業，像顧問與客戶的對話\n- 避免一次問太多問題（最多 2 個）\n- 適時給予肯定和整理"

/-- A `prd_versions` row (its `content` flattened into sections plus the
`metadata` fields `completeness` and `lastUpdatedSection`). -/
structure PrdRow where
  id : Nat
  caseId : Nat
  versionNumber : Nat
  sections : List (String × String)
  completeness : Nat
  lastUpdatedSection : Option String
  markdown : String
  isLocked : Bool
deriving DecidableEq, Repr

/-- The `summarize_conversation` payload (`summary` coerced as
`(args.summary as string) || ''`, the lists defaulted when falsy). -/
structure SummaryPayload where
  summary : String
  keyDecisions : JVal
  openQuestions : JVal
deriving DecidableEq, Repr

/-- An `agent_events` row payload. -/
inductive EventPayload
  | llmResponse (model reply : String)
  | prdUpdate (sectionKey : String) (completeness : Nat)
  | summaryEvt (p : SummaryPayload)
deriving DecidableEq, Repr

/-- An `agent_events` row. -/
structure AgentEvent where
  caseId : Nat
  sessionId : Nat
  eventType : String
  payload : EventPayload
deriving DecidableEq, Repr

/-- A `transcripts` row. -/
structure TranscriptRow where
  sessionId : Nat
  speaker : String
  content : String
  startMs : Nat
  endMs : Nat
  sequenceNumber : Nat
deriving DecidableEq, Repr

/-- A `leads` row (nullable text columns modelled as possibly empty
strings: both `null` and `''` are falsy at every use site). -/
structure LeadRow where
  id : Nat
  company : String
  contactName : String
  title : String
  companySize : String
  industry : String
  needTypes : List String
  description : String
  painPoints : String
  expectedOutcome : String
  existingTools : String
deriving DecidableEq, Repr

/-- A `cases` row (the part the bridge reads). -/
structure CaseRow where
  id : Nat
  leadId : Nat
deriving DecidableEq, Repr

/-- An `artifacts` row. -/
structure ArtifactRow where
  caseId : Nat
  filename : String
  mimeType : String
  sizeBytes : Nat
  storagePath : String
deriving DecidableEq, Repr

/-- The relational state the orchestration layer reads and writes. -/
structure InterviewDb where
  prdRows : List PrdRow
  nextPrdId : Nat
  events : List AgentEvent
  transcripts : List TranscriptRow
  leads : List LeadRow
  cases : List CaseRow
  artifacts : List ArtifactRow
deriving DecidableEq, Repr

/-- The `select ... where caseId ∧ ¬isLocked orderBy versionNumber desc
limit 1` query: the first row among those of maximal version number. -/
def pickDraft (rows : List PrdRow) (caseId : Nat) : Option PrdRow :=
  (rows.filter (fun r => r.caseId == caseId && !r.isLocked)).foldl
    (fun acc r =>
      match acc with
      | none => some r
      | some b => if r.versionNumber > b.versionNumber then some r else acc)
    none

/-- `getOrCreateDraftPrd`: reuse the newest unlocked draft, or insert an
initial empty draft (`\x7bsections: \x7b\x7d, metadata: \x7bcompleteness: 0\x7d\x7d`). -/
def getOrCreateDraftPrd (db : InterviewDb) (caseId : Nat) : InterviewDb × PrdRow :=
  match pickDraft db.prdRows caseId with
  | some r => (db, r)
  | none =>
    let r : PrdRow :=
      { id := db.nextPrdId, caseId := caseId, versionNumber := 1,
        sections := [], completeness := 0, lastUpdatedSection := none,
        markdown := "", isLocked := false }
    ({ db with prdRows := db.prdRows ++ [r], nextPrdId := db.nextPrdId + 1 }, r)

/-- The `db.update(prdVersions).set(...).where(id)` write. -/
def dbUpdatePrd (db : InterviewDb) (prdId : Nat) (sections : List (String × String))
    (completeness : Nat) (sectionKey : String) (markdown : String) : InterviewDb :=
  { db with prdRows := db.prdRows.map (fun r =>
      if r.id == prdId then
        { r with
          sections := sections
          completeness := completeness
          lastUpdatedSection := some sectionKey
          markdown := markdown }
      else r) }

/-- `AgentContext`. -/
structure AgentContext where
  caseId : Nat
  sessionId : Nat
  leadContext : String
deriving DecidableEq, Repr

/-- The return value `AgentResult` of `runAgent`. -/
structure AgentResult where
  reply : String
  prdUpdated : Bool
  summary : Option SummaryPayload
  toolCalls : List (String × ArgsMap)
deriving DecidableEq, Repr

/-- The state threaded through the interview agent loop: the database,
the identity and local copy of the draft PRD, the result accumulators,
and the model context. -/
structure AgentLoopState where
  db : InterviewDb
  prdId : Nat
  prdSections : List (String × String)
  prdUpdated : Bool
  agentSummary : Option SummaryPayload
  allToolCalls : List (String × ArgsMap)
  messages : List ChatMsg
deriving DecidableEq, Repr

/-- The successful `update_prd_section` result payload. -/
def updatePrdResult (sectionKey : String) (completeness : Nat) : String :=
  "\x7b\"success\":true,\"sectionKey\":\"" ++ jsonEscape sectionKey ++
  "\",\"completeness\":" ++ toString completeness ++ "\x7d"

/-- The rejected `update_prd_section` result payload. -/
def invalidKeyResult : String :=
  "\x7b\"success\":false,\"error\":\"Invalid section key\"\x7d"

/-- The `summarize_conversation` result payload. -/
def summaryResult : String := "\x7b\"success\":true\x7d"

/-- The unknown-tool error payload. -/
def unknownToolResult (name : String) : String :=
  "\x7b\"error\":\"Unknown tool: " ++ jsonEscape name ++ "\"\x7d"

/-- One step of the interview tool dispatcher (`agent.ts` lines 164–223).
The source guards the write with
`PRD_SECTION_KEYS.includes(sectionKey) && sectionContent`; the match
below case-splits that same condition by the decoded shape of the two
arguments.  `Except.error` models the `TypeError` thrown inside
`calcCompleteness` when a valid section key is written with a truthy
non-string `content` (the crash happens before the database write; the
pushed `allToolCalls` entry is retained). -/
def execCall (parse : ArgsParse) (ctx : AgentContext) (st : AgentLoopState)
    (tc : RawCall) : Except AgentLoopState AgentLoopState :=
  if tc.name == "" then .ok st
  else
    let args := (parse tc.arguments).getD []
    let st := { st with allToolCalls := st.allToolCalls ++ [(tc.name, args)] }
    if tc.name == "update_prd_section" then
      match argGet args "sectionKey", argGet args "content" with
      | some (.jstr sk), some (.jstr c) =>
        if PRD_SECTION_KEYS.contains sk && (c != "") then
          let updatedSections := objSet st.prdSections sk c
          let completeness := calcCompleteness updatedSections
          let markdown := sectionsToMarkdown updatedSections
          let db := dbUpdatePrd st.db st.prdId updatedSections completeness sk markdown
          let db := { db with events := db.events ++
            [{ caseId := ctx.caseId, sessionId := ctx.sessionId,
               eventType := "prd_update",
               payload := .prdUpdate sk completeness }] }
          .ok { st with
                db := db
                prdSections := updatedSections
                prdUpdated := true
                messages := st.messages ++
                  [ChatMsg.tool tc.id (updatePrdResult sk completeness)] }
        else
          .ok { st with messages := st.messages ++ [ChatMsg.tool tc.id invalidKeyResult] }
      | some (.jstr sk), some v =>
        if PRD_SECTION_KEYS.contains sk && v.truthy then .error st
        else
          .ok { st with messages := st.messages ++ [ChatMsg.tool tc.id invalidKeyResult] }
      | _, _ =>
        .ok { st with messages := st.messages ++ [ChatMsg.tool tc.id invalidKeyResult] }
    else if tc.name == "summarize_conversation" then
      let p : SummaryPayload :=
        { summary := jsOrEmptyString (argGet args "summary"),
          keyDecisions := jsOrEmptyArr (argGet args "keyDecisions"),
          openQuestions := jsOrEmptyArr (argGet args "openQuestions") }
      let db := { st.db with events := st.db.events ++
        [{ caseId := ctx.caseId, sessionId := ctx.sessionId,
           eventType := "summary", payload := .summaryEvt p }] }
      .ok { st with
            db := db
            agentSummary := some p
            messages := st.messages ++ [ChatMsg.tool tc.id summaryResult] }
    else
      .ok { st with messages := st.messages ++
        [ChatMsg.tool tc.id (unknownToolResult tc.name)] }

/-- The tool-execution loop of one iteration: array order, stopping at a
thrown `TypeError` (second component `true`). -/
def execCalls (parse : ArgsParse) (ctx : AgentContext) :
    AgentLoopState → List RawCall → AgentLoopState × Bool
  | st, [] => (st, false)
  | st, tc :: rest =>
    match execCall parse ctx st tc with
    | .ok st' => execCalls parse ctx st' rest
    | .error st' => (st', true)

/-- The fixed fallback reply of `runAgent` at iteration exhaustion. -/
def fallbackReply : String := "（達到最大迭代次數）"

/-- Building the `AgentResult` from the loop state. -/
def mkResult (reply : String) (st : AgentLoopState) : AgentResult :=
  { reply := reply, prdUpdated := st.prdUpdated,
    summary := st.agentSummary, toolCalls := st.allToolCalls }

/-- The iteration loop of `runAgent`: remaining fuel, iteration index,
loop state, user message.  Returns the database (with all committed
writes), the streamed chunks, and the result — `none` when the backend
call or a tool dispatch threw. -/
def loop (parse : ArgsParse) (oracle : Oracle) (ctx : AgentContext)
    (userMessage : String) :
    Nat → Nat → AgentLoopState → InterviewDb × List String × Option AgentResult
  | 0, _, st => (st.db, [], some (mkResult fallbackReply st))
  | fuel + 1, i, st =>
    match oracle i with
    | .failure ds => (st.db, contentChunks ds, none)
    | .ok ds =>
      let content := (consumeStream ds).1
      let raw := (consumeStream ds).2
      if noNamedCalls raw then
        let db' := { st.db with events := st.db.events ++
          [{ caseId := ctx.caseId, sessionId := ctx.sessionId,
             eventType := "llm_response",
             payload := .llmResponse "deepseek-chat" (content.take 500) }] }
        (db', contentChunks ds, some (mkResult content st))
      else
        let ex := execCalls parse ctx
          { st with messages := st.messages ++ [Intake.assistantCtxMsg content raw] } raw
        if ex.2 then (ex.1.db, contentChunks ds, none)
        else
          let rest := loop parse oracle ctx userMessage fuel (i + 1) ex.1
          (rest.1, contentChunks ds ++ rest.2.1, rest.2.2)

/-- The loop state `runAgent` starts from: the resolved draft PRD, empty
accumulators, and the initial model context. -/
def initLoopState (db : InterviewDb) (ctx : AgentContext) (history : List ChatMsg)
    (userMessage : String) : AgentLoopState :=
  let pr := getOrCreateDraftPrd db ctx.caseId
  { db := pr.1, prdId := pr.2.id, prdSections := pr.2.sections,
    prdUpdated := false, agentSummary := none, allToolCalls := [],
    messages := [ChatMsg.system (buildSystemPrompt ctx.leadContext pr.2.sections)] ++
      history ++ [ChatMsg.user userMessage] }

/-- `runAgent`: resolve the draft PRD, build the context and iterate. -/
def runAgent (parse : ArgsParse) (oracle : Oracle) (db : InterviewDb)
    (ctx : AgentContext) (history : List ChatMsg) (userMessage : String) :
    InterviewDb × List String × Option AgentResult :=
  loop parse oracle ctx userMessage MAX_TOOL_ITERATIONS 0
    (initLoopState db ctx history userMessage)

end Interview

namespace Sock

/-- `INTAKE_MAX_SESSIONS_PER_HOUR`. -/
def INTAKE_MAX_SESSIONS_PER_HOUR : Nat := 3

/-- `INTAKE_MAX_TURNS`. -/
def INTAKE_MAX_TURNS : Nat := 10

/-- The per-IP admission window `\x7bcount, resetAt\x7d` of `intakeRateMap`. -/
structure RateEntry where
  count : Nat
  resetAt : Nat
deriving DecidableEq, Repr

/-- The admission-control check of the `intakeStart` handler
(`socket.ts` lines 154–168): reset the window when `now > resetAt`, then
reject when the count has reached the cap, else count the new session.
Returns the stored window and whether session creation proceeds. -/
def rateCheck (entry : Option RateEntry) (now : Nat) : RateEntry × Bool :=
  match entry with
  | none => ({ count := 1, resetAt := now + 3600000 }, true)
  | some rate =>
    let rate :=
      if now > rate.resetAt then { count := 0, resetAt := now + 3600000 }
      else rate
    if rate.count ≥ INTAKE_MAX_SESSIONS_PER_HOUR then (rate, false)
    else ({ rate with count := rate.count + 1 }, true)

/-- An outbound transport event. -/
inductive OutEvent
  | msg (role content : String)
  | agentTyping (b : Bool)
  | agentStream (chunk : String)
  | prdUpdatedEvt (caseId : Nat)
  | agentSummaryEvt (p : Interview.SummaryPayload)
  | toolCallsEvt (calls : List (String × ArgsMap))
  | errorEvt (message : String)
  | sttProcessingEvt (b : Bool)
  | sttResultEvt (text : Option String) (error : Option String)
  | intakeErrorEvt (message : String)
  | intakeAgentTypingEvt (b : Bool)
  | intakeAgentStreamEvt (chunk : String)
  | intakeMsgEvt (role content : String)
  | intakeDataUpdateEvt (data : Intake.IntakeData) (completeness : Nat)
      (isComplete : Bool) (summary : String)
  | intakeStartedEvt (clientId : String) (sttAvailable : Bool)
deriving DecidableEq, Repr

/-- The process-wide in-memory state of the transport bridge. -/
structure ServerState where
  intakeRateMap : List (String × RateEntry)
  intakeSessions : List (String × Intake.IntakeSession)
  sessionHistories : List (Nat × List ChatMsg)
  sessionSeqCounters : List (Nat × Nat)
  sessionAudioBuffers : List (Nat × List (List Nat))
  sessionRecordings : List (Nat × List (List Nat))
  db : Interview.InterviewDb
deriving DecidableEq, Repr

/-- Per-connection closure state of one socket. -/
structure ConnState where
  intakeClientId : Option String
  currentSessionId : Option Nat
  currentCaseId : Option Nat
deriving DecidableEq, Repr

/-- The `intakeStart` handler: admission control, then session creation
under a fresh client id.  Returns the state, the connection's new
`intakeClientId`, and the emitted events (the callback reply modelled as
`intakeStartedEvt`). -/
def intakeStart (st : ServerState) (ip : String) (now : Nat)
    (freshId : String) (sttAvailable : Bool) :
    ServerState × Option String × List OutEvent :=
  let rc := rateCheck (mget st.intakeRateMap ip) now
  let st := { st with intakeRateMap := mset st.intakeRateMap ip rc.1 }
  if rc.2 then
    ({ st with intakeSessions := mset st.intakeSessions freshId (Intake.freshSession now) },
     some freshId, [.intakeStartedEvt freshId sttAvailable])
  else
    (st, none, [.intakeErrorEvt "操作過於頻繁，請稍後再試"])

/-- The `intakeMessage` handler (`socket.ts` lines 206–249): session and
turn-quota checks, then one intake agent turn with streaming. -/
def intakeMessage (parse : ArgsParse) (oracle : Oracle) (now : Nat)
    (st : ServerState) (intakeClientId : Option String) (message : String) :
    ServerState × List OutEvent :=
  match intakeClientId with
  | none => (st, [.intakeErrorEvt "請先開始對話"])
  | some cid =>
    let g := Intake.getIntakeSession st.intakeSessions cid now
    let st := { st with intakeSessions := g.1 }
    match g.2 with
    | none => (st, [.intakeErrorEvt "對話已過期，請重新開始"])
    | some s =>
      if s.turnCount ≥ INTAKE_MAX_TURNS then
        (st, [.intakeErrorEvt "已達對話上限，請繼續填寫報名表"])
      else
        let r := Intake.runIntakeAgent parse oracle now st.intakeSessions cid message
        let st := { st with intakeSessions := r.1 }
        let streamed := r.2.1.map OutEvent.intakeAgentStreamEvt
        match r.2.2 with
        | some res =>
          (st, [.intakeAgentTypingEvt true] ++ streamed ++
            [.intakeAgentTypingEvt false,
             .intakeMsgEvt "agent" res.reply,
             .intakeDataUpdateEvt res.data res.completeness res.isComplete res.summary])
        | none =>
          (st, [.intakeAgentTypingEvt true] ++ streamed ++
            [.intakeAgentTypingEvt false, .intakeErrorEvt "處理錯誤，請重試"])

/-- The lead-context string assembled by `handleUserMessage`
(`socket.ts` lines 316–333): present lines joined by newlines. -/
def buildLeadContext (db : Interview.InterviewDb) (caseId : Nat) : String :=
  match db.cases.find? (fun c => c.id == caseId) with
  | none => ""
  | some c =>
    match db.leads.find? (fun l => l.id == c.leadId) with
    | none => ""
    | some l =>
      String.intercalate "\n" (List.filter (fun s => s != "")
        ["公司: " ++ l.company,
         "聯絡人: " ++ l.contactName ++
           (if l.title != "" then " (" ++ l.title ++ ")" else ""),
         "規模: " ++ l.companySize,
         (if l.industry != "" then "產業: " ++ l.industry else ""),
         "需求類型: " ++ String.intercalate "、" l.needTypes,
         (if l.description != "" then "需求描述: " ++ l.description else ""),
         (if l.painPoints != "" then "痛點: " ++ l.painPoints else ""),
         (if l.expectedOutcome != "" then "期望成果: " ++ l.expectedOutcome else ""),
         (if l.existingTools != "" then "現有工具: " ++ l.existingTools else "")])

/-- The sequence number the next transcript line of a session receives. -/
def seqOf (st : ServerState) (sessionId : Nat) : Nat :=
  (mget st.sessionSeqCounters sessionId).getD 0

/-- The database after the user transcript line is inserted. -/
def dbAfterUserLine (st : ServerState) (sessionId : Nat) (message : String) :
    Interview.InterviewDb :=
  { st.db with transcripts := st.db.transcripts ++
    [{ sessionId := sessionId, speaker := "consultant", content := message,
       startMs := 0, endMs := 0, sequenceNumber := seqOf st sessionId }] }

/-- The `AgentContext` assembled for one interview turn. -/
def agentCtxFor (st : ServerState) (sessionId caseId : Nat) (message : String) :
    Interview.AgentContext :=
  { caseId := caseId, sessionId := sessionId,
    leadContext := buildLeadContext (dbAfterUserLine st sessionId message) caseId }

/-- The in-memory conversation history of an interview session. -/
def historyOf (st : ServerState) (sessionId : Nat) : List ChatMsg :=
  (mget st.sessionHistories sessionId).getD []

/-- One interview agent turn as `handleUserMessage` invokes it. -/
def interviewTurn (parse : ArgsParse) (oracle : Oracle) (st : ServerState)
    (sessionId caseId : Nat) (message : String) :
    Interview.InterviewDb × List String × Option Interview.AgentResult :=
  Interview.runAgent parse oracle (dbAfterUserLine st sessionId message)
    (agentCtxFor st sessionId caseId message) (historyOf st sessionId) message

/-- The shared `handleUserMessage` of `socket.ts`: persist the user
transcript line, broadcast the user message, run the interview agent, and
on success persist the agent transcript line, extend the in-memory
history by the user and assistant messages, and broadcast the reply and
notifications; on a thrown agent error emit the error event and leave the
history untouched. -/
def handleUserMessage (parse : ArgsParse) (oracle : Oracle) (st : ServerState)
    (sessionId caseId : Nat) (message : String) :
    ServerState × List OutEvent :=
  let seq := seqOf st sessionId
  let counters := mset st.sessionSeqCounters sessionId (seq + 1)
  let history := historyOf st sessionId
  let r := interviewTurn parse oracle st sessionId caseId message
  let streamed := r.2.1.map OutEvent.agentStream
  match r.2.2 with
  | none =>
    ({ st with db := r.1, sessionSeqCounters := counters },
     [OutEvent.msg "user" message, .agentTyping true] ++ streamed ++
       [.agentTyping false, .errorEvt "Agent 處理錯誤，請重試"])
  | some res =>
    let agentSeq := (mget counters sessionId).getD 0
    let db' := { r.1 with transcripts := r.1.transcripts ++
      [{ sessionId := sessionId, speaker := "agent", content := res.reply,
         startMs := 0, endMs := 0, sequenceNumber := agentSeq }] }
    let counters' := mset counters sessionId (agentSeq + 1)
    let history' := history ++
      [ChatMsg.user message, ChatMsg.assistant (some res.reply) []]
    ({ st with
       db := db'
       sessionSeqCounters := counters'
       sessionHistories := mset st.sessionHistories sessionId history' },
     [OutEvent.msg "user" message, .agentTyping true] ++ streamed ++
       [.agentTyping false, .msg "agent" res.reply] ++
       (if res.prdUpdated then [.prdUpdatedEvt caseId] else []) ++
       (match res.summary with
        | some p => [.agentSummaryEvt p]
        | none => []) ++
       (if res.toolCalls.isEmpty then [] else [.toolCallsEvt res.toolCalls]))

/-- The `disconnect` handler: delete the connection's intake session;
for a joined interview session, save the accumulated full recording as an
artifact (when non-empty) and drop the two audio accumulators.  The
conversation history map is not touched. -/
def disconnectHandler (st : ServerState) (c : ConnState) (now : Nat) : ServerState :=
  let st :=
    match c.intakeClientId with
    | some cid => { st with intakeSessions := mdel st.intakeSessions cid }
    | none => st
  match c.currentSessionId, c.currentCaseId with
  | some sid, some caseId =>
    let st : ServerState :=
      match mget st.sessionRecordings sid with
      | some recording =>
        if recording.isEmpty then st
        else
          let full := recording.flatten
          let filename := "recording_session_" ++ toString sid ++ "_" ++
            toString now ++ ".webm"
          { st with db := { st.db with artifacts := st.db.artifacts ++
              [{ caseId := caseId, filename := filename,
                 mimeType := "audio/webm", sizeBytes := full.length,
                 storagePath := "data/artifacts/" ++ filename }] } }
      | none => st
    { st with
      sessionAudioBuffers := mdel st.sessionAudioBuffers sid
      sessionRecordings := mdel st.sessionRecordings sid }
  | _, _ => st

/-- The background sweep as it acts on the whole server state: only the
intake session registry is filtered; every other map is untouched. -/
def sweepState (now : Nat) (st : ServerState) : ServerState :=
  { st with intakeSessions := Intake.sweep now st.intakeSessions }

end Sock

/-- Projection used to state ordering properties: the `tool_call_id` of a
tool-result message. -/
def chatToolId : ChatMsg → Option String
  | .tool id _ => some id
  | _ => none

/-- A backend response that keeps the loop going: a successful stream
whose accumulated tool-call array contains a named call. -/
def okNamed : ModelResp → Bool
  | .failure _ => false
  | .ok ds => !noNamedCalls (consumeStream ds).2

namespace Intake

/-- The session-state effect of one loop iteration, used to state
replay equalities: a failed call leaves the session as is, a successful
stream executes its accumulated tool calls. -/
def stepAt (parse : ArgsParse) (oracle : Oracle) (i : Nat) (s : IntakeSession) :
    IntakeSession :=
  match oracle i with
  | .failure _ => s
  | .ok ds => (execCalls parse s (consumeStream ds).2).1

/-- Replaying `n` loop iterations starting at iteration index `i`. -/
def iterFrom (parse : ArgsParse) (oracle : Oracle) : Nat → Nat → IntakeSession → IntakeSession
  | _, 0, s => s
  | i, n + 1, s => iterFrom parse oracle (i + 1) n (stepAt parse oracle i s)

end Intake

namespace Interview

/-- The loop-state effect of one interview iteration (assistant context
message pushed, then the tool calls executed), for replay statements. -/
def stepAt (parse : ArgsParse) (oracle : Oracle) (ctx : AgentContext) (i : Nat)
    (st : AgentLoopState) : AgentLoopState :=
  match oracle i with
  | .failure _ => st
  | .ok ds =>
    (execCalls parse ctx
      { st with messages := st.messages ++
        [Intake.assistantCtxMsg (consumeStream ds).1 (consumeStream ds).2] }
      (consumeStream ds).2).1

/-- Whether the tool dispatch of iteration `i` throws from state `st`. -/
def crashAt (parse : ArgsParse) (oracle : Oracle) (ctx : AgentContext) (i : Nat)
    (st : AgentLoopState) : Bool :=
  match oracle i with
  | .failure _ => false
  | .ok ds =>
    (execCalls parse ctx
      { st with messages := st.messages ++
        [Intake.assistantCtxMsg (consumeStream ds).1 (consumeStream ds).2] }
      (consumeStream ds).2).2

/-- Replaying `n` interview loop iterations starting at index `i`. -/
def iterFrom (parse : ArgsParse) (oracle : Oracle) (ctx : AgentContext) :
    Nat → Nat → AgentLoopState → AgentLoopState
  | _, 0, st => st
  | i, n + 1, st => iterFrom parse oracle ctx (i + 1) n (stepAt parse oracle ctx i st)

end Interview

section MapLemmas

theorem mget_map_set_self {α β : Type} [BEq α] [LawfulBEq α]
    (m : List (α × β)) (k : α) (v : β) (h : m.any (fun p => p.1 == k) = true) :
    mget (m.map (fun p => if p.1 == k then (k, v) else p)) k = some v := by
  induction m with
  | nil => simp at h
  | cons a l ih =>
    by_cases h1 : a.1 == k
    · simp [mget, List.find?, h1]
    · simp only [List.any_cons, h1, Bool.false_or] at h
      simpa [mget, List.find?, h1] using ih h

theorem mget_append_single {α β : Type} [BEq α] [LawfulBEq α]
    (m : List (α × β)) (k : α) (v : β) (h : m.any (fun p => p.1 == k) = false) :
    mget (m ++ [(k, v)]) k = some v := by
  induction m with
  | nil => simp [mget, List.find?]
  | cons a l ih =>
    simp only [List.any_cons, Bool.or_eq_false_iff] at h
    simpa [mget, List.find?, h.1] using ih h.2

theorem mget_mset_self {α β : Type} [BEq α] [LawfulBEq α]
    (m : List (α × β)) (k : α) (v : β) :
    mget (mset m k v) k = some v := by
  unfold mset
  by_cases h : m.any (fun p => p.1 == k)
  · simpa [h] using mget_map_set_self m k v h
  · simp only [Bool.not_eq_true] at h
    simpa [h] using mget_append_single m k v h

theorem mget_mdel_self {α β : Type} [BEq α] [LawfulBEq α]
    (m : List (α × β)) (k : α) :
    mget (mdel m k) k = none := by
  induction m with
  | nil => rfl
  | cons a l ih =>
    by_cases h1 : a.1 == k
    · simpa [mdel, h1] using ih
    · rw [show mdel (a :: l) k = a :: mdel l k by simp [mdel, h1]]
      simpa [mget, List.find?, h1] using ih

end MapLemmas

section RoundingLemmas

theorem jsRoundPct_spec (f t : Nat) (ht : 0 < t) :
    jsRoundPct f t = ⌊(100 * (f : ℚ) / (t : ℚ) + 1 / 2 : ℚ)⌋₊ := by
  have ht' : (t : ℚ) ≠ 0 := Nat.cast_ne_zero.mpr ht.ne'
  have key : (100 * (f : ℚ) / (t : ℚ) + 1 / 2 : ℚ)
      = ((200 * f + t : ℕ) : ℚ) / ((2 * t : ℕ) : ℚ) := by
    push_cast
    field_simp
    ring
  rw [key, Nat.floor_div_nat, Nat.floor_natCast]
  rfl

theorem jsRoundPct_mono (a b t : Nat) (h : a ≤ b) :
    jsRoundPct a t ≤ jsRoundPct b t :=
  Nat.div_le_div_right (by omega)

theorem filter_length_mono {α : Type} (l : List α) (p q : α → Bool)
    (h : ∀ a ∈ l, p a = true → q a = true) :
    (l.filter p).length ≤ (l.filter q).length := by
  induction l with
  | nil => simp
  | cons a l ih =>
    have ih' := ih (fun x hx => h x (List.mem_cons_of_mem a hx))
    by_cases hp : p a
    · have hq := h a (List.mem_cons_self a l) hp
      simp [List.filter_cons, hp, hq]
      omega
    · simp only [List.filter_cons, Bool.not_eq_true] at hp ⊢
      rw [hp]
      by_cases hq : q a
      · simp [hq]
        omega
      · simp only [Bool.not_eq_true] at hq
        rw [hq]
        exact ih'

end RoundingLemmas

namespace Intake

theorem execCall_messages (parse : ArgsParse) (s : IntakeSession) (tc : RawCall) :
    (execCall parse s tc).1.messages = s.messages := by
  unfold execCall
  repeat' split
  all_goals rfl

theorem execCall_turnCount (parse : ArgsParse) (s : IntakeSession) (tc : RawCall) :
    (execCall parse s tc).1.turnCount = s.turnCount := by
  unfold execCall
  repeat' split
  all_goals rfl

theorem execCall_lastActivity (parse : ArgsParse) (s : IntakeSession) (tc : RawCall) :
    (execCall parse s tc).1.lastActivity = s.lastActivity := by
  unfold execCall
  repeat' split
  all_goals rfl

theorem execCall_toolIds (parse : ArgsParse) (s : IntakeSession) (tc : RawCall) :
    (execCall parse s tc).2.map chatToolId
      = if tc.name == "" then [] else [some tc.id] := by
  unfold execCall
  repeat' split
  all_goals simp [chatToolId]

theorem execCalls_acc (parse : ArgsParse) (calls : List RawCall)
    (s : IntakeSession) (acc : List ChatMsg) :
    calls.foldl
      (fun acc tc =>
        let r := execCall parse acc.1 tc
        (r.1, acc.2 ++ r.2))
      (s, acc)
      = ((execCalls parse s calls).1, acc ++ (execCalls parse s calls).2) := by
  induction calls generalizing s acc with
  | nil => simp [execCalls]
  | cons tc rest ih =>
    simp only [execCalls, List.foldl_cons]
    rw [ih, ih]
    simp

theorem execCalls_cons (parse : ArgsParse) (s : IntakeSession) (tc : RawCall)
    (rest : List RawCall) :
    execCalls parse s (tc :: rest)
      = ((execCalls parse (execCall parse s tc).1 rest).1,
         (execCall parse s tc).2 ++ (execCalls parse (execCall parse s tc).1 rest).2) := by
  unfold execCalls
  simp only [List.foldl_cons]
  exact execCalls_acc parse rest (execCall parse s tc).1 (execCall parse s tc).2

theorem execCalls_messages (parse : ArgsParse) (s : IntakeSession) (calls : List RawCall) :
    (execCalls parse s calls).1.messages = s.messages := by
  induction calls generalizing s with
  | nil => rfl
  | cons tc rest ih =>
    rw [execCalls_cons]
    simp only
    rw [ih, execCall_messages]

theorem execCalls_turnCount (parse : ArgsParse) (s : IntakeSession) (calls : List RawCall) :
    (execCalls parse s calls).1.turnCount = s.turnCount := by
  induction calls generalizing s with
  | nil => rfl
  | cons tc rest ih =>
    rw [execCalls_cons]
    simp only
    rw [ih, execCall_turnCount]

theorem execCalls_lastActivity (parse : ArgsParse) (s : IntakeSession) (calls : List RawCall) :
    (execCalls parse s calls).1.lastActivity = s.lastActivity := by
  induction calls generalizing s with
  | nil => rfl
  | cons tc rest ih =>
    rw [execCalls_cons]
    simp only
    rw [ih, execCall_lastActivity]

theorem execCalls_toolIds (parse : ArgsParse) (s : IntakeSession) (calls : List RawCall) :
    (execCalls parse s calls).2.map chatToolId
      = (calls.filter (fun tc => tc.name != "")).map (fun tc => some tc.id) := by
  induction calls generalizing s with
  | nil => rfl
  | cons tc rest ih =>
    rw [execCalls_cons]
    simp only [List.map_append, execCall_toolIds, List.filter_cons]
    by_cases h : tc.name = ""
    · simp [h, ih]
    · simp [h, ih]

end Intake

namespace Intake

theorem loop_zero (parse : ArgsParse) (oracle : Oracle) (u : String) (i : Nat)
    (s : IntakeSession) (msgs : List ChatMsg) :
    loop parse oracle u 0 i s msgs
      = ({ s with messages := s.messages ++
            [ChatMsg.user u, ChatMsg.assistant (some fallbackReply) []] },
         [],
         some (mkResult fallbackReply { s with messages := s.messages ++
            [ChatMsg.user u, ChatMsg.assistant (some fallbackReply) []] })) := rfl

theorem loop_fail (parse : ArgsParse) (oracle : Oracle) (u : String)
    (fuel i : Nat) (s : IntakeSession) (msgs : List ChatMsg)
    (ds : List StreamDelta) (h : oracle i = .failure ds) :
    loop parse oracle u (fuel + 1) i s msgs = (s, contentChunks ds, none) := by
  unfold loop
  rw [h]

theorem loop_done (parse : ArgsParse) (oracle : Oracle) (u : String)
    (fuel i : Nat) (s : IntakeSession) (msgs : List ChatMsg)
    (ds : List StreamDelta) (h : oracle i = .ok ds)
    (h2 : noNamedCalls (consumeStream ds).2 = true) :
    loop parse oracle u (fuel + 1) i s msgs
      = ({ s with messages := s.messages ++
            [ChatMsg.user u, ChatMsg.assistant (some (consumeStream ds).1) []] },
         contentChunks ds,
         some (mkResult (consumeStream ds).1 { s with messages := s.messages ++
            [ChatMsg.user u, ChatMsg.assistant (some (consumeStream ds).1) []] })) := by
  unfold loop
  rw [h]
  simp [h2]

theorem loop_tools (parse : ArgsParse) (oracle : Oracle) (u : String)
    (fuel i : Nat) (s : IntakeSession) (msgs : List ChatMsg)
    (ds : List StreamDelta) (h : oracle i = .ok ds)
    (h2 : noNamedCalls (consumeStream ds).2 = false) :
    loop parse oracle u (fuel + 1) i s msgs
      = ((loop parse oracle u fuel (i + 1) (execCalls parse s (consumeStream ds).2).1
            (msgs ++ [assistantCtxMsg (consumeStream ds).1 (consumeStream ds).2]
              ++ (execCalls parse s (consumeStream ds).2).2)).1,
         contentChunks ds ++
           (loop parse oracle u fuel (i + 1) (execCalls parse s (consumeStream ds).2).1
            (msgs ++ [assistantCtxMsg (consumeStream ds).1 (consumeStream ds).2]
              ++ (execCalls parse s (consumeStream ds).2).2)).2.1,
         (loop parse oracle u fuel (i + 1) (execCalls parse s (consumeStream ds).2).1
            (msgs ++ [assistantCtxMsg (consumeStream ds).1 (consumeStream ds).2]
              ++ (execCalls parse s (consumeStream ds).2).2)).2.2) := by
  conv_lhs => rw [loop.eq_def]
  simp [h, h2]

end Intake

namespace Intake

theorem loop_none_messages (parse : ArgsParse) (oracle : Oracle) (u : String) :
    ∀ (fuel i : Nat) (s : IntakeSession) (msgs : List ChatMsg),
      (loop parse oracle u fuel i s msgs).2.2 = none →
      (loop parse oracle u fuel i s msgs).1.messages = s.messages := by
  intro fuel
  induction fuel with
  | zero =>
    intro i s msgs h
    rw [loop_zero] at h
    simp at h
  | succ fuel ih =>
    intro i s msgs h
    cases horacle : oracle i with
    | failure ds =>
      rw [loop_fail parse oracle u fuel i s msgs ds horacle]
    | ok ds =>
      by_cases h2 : noNamedCalls (consumeStream ds).2
      · rw [loop_done parse oracle u fuel i s msgs ds horacle h2] at h
        simp at h
      · simp only [Bool.not_eq_true] at h2
        rw [loop_tools parse oracle u fuel i s msgs ds horacle h2] at h ⊢
        rw [ih _ _ _ h, execCalls_messages]

theorem loop_turnCount (parse : ArgsParse) (oracle : Oracle) (u : String) :
    ∀ (fuel i : Nat) (s : IntakeSession) (msgs : List ChatMsg),
      (loop parse oracle u fuel i s msgs).1.turnCount = s.turnCount := by
  intro fuel
  induction fuel with
  | zero =>
    intro i s msgs
    rw [loop_zero]
  | succ fuel ih =>
    intro i s msgs
    cases horacle : oracle i with
    | failure ds =>
      rw [loop_fail parse oracle u fuel i s msgs ds horacle]
    | ok ds =>
      by_cases h2 : noNamedCalls (consumeStream ds).2
      · rw [loop_done parse oracle u fuel i s msgs ds horacle h2]
      · simp only [Bool.not_eq_true] at h2
        rw [loop_tools parse oracle u fuel i s msgs ds horacle h2]
        rw [ih, execCalls_turnCount]

theorem loop_exhaust (parse : ArgsParse) (oracle : Oracle) (u : String) :
    ∀ (fuel i : Nat) (s : IntakeSession) (msgs : List ChatMsg),
      (∀ j, j < fuel → okNamed (oracle (i + j)) = true) →
      (loop parse oracle u fuel i s msgs).1
          = { iterFrom parse oracle i fuel s with
              messages := (iterFrom parse oracle i fuel s).messages ++
                [ChatMsg.user u, ChatMsg.assistant (some fallbackReply) []] }
        ∧ (loop parse oracle u fuel i s msgs).2.2
          = some (mkResult fallbackReply (loop parse oracle u fuel i s msgs).1) := by
  intro fuel
  induction fuel with
  | zero =>
    intro i s msgs _
    rw [loop_zero]
    exact ⟨rfl, rfl⟩
  | succ fuel ih =>
    intro i s msgs hok
    have h0 := hok 0 (Nat.succ_pos fuel)
    cases horacle : oracle i with
    | failure ds =>
      rw [Nat.add_zero] at h0
      rw [horacle] at h0
      simp [okNamed] at h0
    | ok ds =>
      rw [Nat.add_zero] at h0
      rw [horacle] at h0
      simp only [okNamed, Bool.not_eq_true'] at h0
      rw [loop_tools parse oracle u fuel i s msgs ds horacle h0]
      have hstep : stepAt parse oracle i s = (execCalls parse s (consumeStream ds).2).1 := by
        unfold stepAt
        rw [horacle]
      have hiter : iterFrom parse oracle i (fuel + 1) s
          = iterFrom parse oracle (i + 1) fuel (execCalls parse s (consumeStream ds).2).1 := by
        rw [iterFrom, hstep]
      have hok' : ∀ j, j < fuel → okNamed (oracle (i + 1 + j)) = true := by
        intro j hj
        have := hok (j + 1) (Nat.succ_lt_succ hj)
        rwa [show i + (j + 1) = i + 1 + j by omega] at this
      have := ih (i + 1) (execCalls parse s (consumeStream ds).2).1
        (msgs ++ [assistantCtxMsg (consumeStream ds).1 (consumeStream ds).2]
          ++ (execCalls parse s (consumeStream ds).2).2) hok'
      rw [hiter]
      exact this

end Intake

namespace Interview

theorem execCall_ok_shape (parse : ArgsParse) (ctx : AgentContext)
    (st : AgentLoopState) (tc : RawCall) (st' : AgentLoopState)
    (h : execCall parse ctx st tc = .ok st') :
    ∃ tms, st'.messages = st.messages ++ tms ∧
      tms.map chatToolId
        = (if tc.name == "" then ([] : List (Option String)) else [some tc.id]) := by
  unfold execCall at h
  by_cases h1 : tc.name == ""
  · rw [if_pos h1] at h
    cases h
    exact ⟨[], by simp, by simp [h1]⟩
  · rw [if_neg h1] at h
    by_cases hupd : tc.name == "update_prd_section"
    · rw [if_pos hupd] at h
      split at h
      · split at h
        · cases h
          exact ⟨_, rfl, by simp [h1, chatToolId]⟩
        · cases h
          exact ⟨_, rfl, by simp [h1, chatToolId]⟩
      · split at h
        · exact absurd h (by simp)
        · cases h
          exact ⟨_, rfl, by simp [h1, chatToolId]⟩
      · cases h
        exact ⟨_, rfl, by simp [h1, chatToolId]⟩
    · rw [if_neg hupd] at h
      by_cases hsum : tc.name == "summarize_conversation"
      · rw [if_pos hsum] at h
        cases h
        exact ⟨_, rfl, by simp [h1, chatToolId]⟩
      · rw [if_neg hsum] at h
        cases h
        exact ⟨_, rfl, by simp [h1, chatToolId]⟩

end Interview

namespace Interview

theorem execCalls_ok_shape (parse : ArgsParse) (ctx : AgentContext) :
    ∀ (raw : List RawCall) (st st' : AgentLoopState),
      execCalls parse ctx st raw = (st', false) →
      ∃ tms, st'.messages = st.messages ++ tms ∧
        tms.map chatToolId
          = (raw.filter (fun tc => tc.name != "")).map (fun tc => some tc.id) := by
  intro raw
  induction raw with
  | nil =>
    intro st st' h
    cases h
    exact ⟨[], by simp, by simp⟩
  | cons tc rest ih =>
    intro st st' h
    unfold execCalls at h
    cases hc : execCall parse ctx st tc with
    | error st1 =>
      rw [hc] at h
      simp at h
    | ok st1 =>
      rw [hc] at h
      obtain ⟨tms2, hm2, hid2⟩ := ih st1 st' h
      obtain ⟨tms1, hm1, hid1⟩ := execCall_ok_shape parse ctx st tc st1 hc
      refine ⟨tms1 ++ tms2, by rw [hm2, hm1, List.append_assoc], ?_⟩
      rw [List.map_append, hid1, hid2, List.filter_cons]
      by_cases hname : tc.name = ""
      · simp [hname]
      · simp [hname]

theorem agentLoop_zero (parse : ArgsParse) (oracle : Oracle) (ctx : AgentContext)
    (u : String) (i : Nat) (st : AgentLoopState) :
    loop parse oracle ctx u 0 i st
      = (st.db, [], some (mkResult fallbackReply st)) := rfl

theorem agentLoop_fail (parse : ArgsParse) (oracle : Oracle) (ctx : AgentContext)
    (u : String) (fuel i : Nat) (st : AgentLoopState)
    (ds : List StreamDelta) (h : oracle i = .failure ds) :
    loop parse oracle ctx u (fuel + 1) i st = (st.db, contentChunks ds, none) := by
  unfold loop
  rw [h]

theorem agentLoop_done (parse : ArgsParse) (oracle : Oracle) (ctx : AgentContext)
    (u : String) (fuel i : Nat) (st : AgentLoopState)
    (ds : List StreamDelta) (h : oracle i = .ok ds)
    (h2 : noNamedCalls (consumeStream ds).2 = true) :
    loop parse oracle ctx u (fuel + 1) i st
      = ({ st.db with events := st.db.events ++
            [{ caseId := ctx.caseId, sessionId := ctx.sessionId,
               eventType := "llm_response",
               payload := .llmResponse "deepseek-chat" ((consumeStream ds).1.take 500) }] },
         contentChunks ds,
         some (mkResult (consumeStream ds).1 st)) := by
  unfold loop
  rw [h]
  simp [h2]

theorem agentLoop_tools (parse : ArgsParse) (oracle : Oracle) (ctx : AgentContext)
    (u : String) (fuel i : Nat) (st : AgentLoopState)
    (ds : List StreamDelta) (h : oracle i = .ok ds)
    (h2 : noNamedCalls (consumeStream ds).2 = false)
    (h3 : crashAt parse oracle ctx i st = false) :
    loop parse oracle ctx u (fuel + 1) i st
      = ((loop parse oracle ctx u fuel (i + 1) (stepAt parse oracle ctx i st)).1,
         contentChunks ds ++
           (loop parse oracle ctx u fuel (i + 1) (stepAt parse oracle ctx i st)).2.1,
         (loop parse oracle ctx u fuel (i + 1) (stepAt parse oracle ctx i st)).2.2) := by
  unfold crashAt at h3
  rw [h] at h3
  dsimp only at h3
  have hstep : stepAt parse oracle ctx i st
      = (execCalls parse ctx
          { st with messages := st.messages ++
            [Intake.assistantCtxMsg (consumeStream ds).1 (consumeStream ds).2] }
          (consumeStream ds).2).1 := by
    unfold stepAt
    rw [h]
  conv_lhs => rw [loop.eq_def]
  simp only [h, h2, Bool.false_eq_true, if_false]
  rw [hstep]
  simp [h3]

theorem agentLoop_crash (parse : ArgsParse) (oracle : Oracle) (ctx : AgentContext)
    (u : String) (fuel i : Nat) (st : AgentLoopState)
    (ds : List StreamDelta) (h : oracle i = .ok ds)
    (h2 : noNamedCalls (consumeStream ds).2 = false)
    (h3 : crashAt parse oracle ctx i st = true) :
    loop parse oracle ctx u (fuel + 1) i st
      = ((execCalls parse ctx
            { st with messages := st.messages ++
              [Intake.assistantCtxMsg (consumeStream ds).1 (consumeStream ds).2] }
            (consumeStream ds).2).1.db,
         contentChunks ds, none) := by
  unfold crashAt at h3
  rw [h] at h3
  dsimp only at h3
  conv_lhs => rw [loop.eq_def]
  simp only [h, h2, Bool.false_eq_true, if_false]
  simp [h3]

theorem agentLoop_exhaust (parse : ArgsParse) (oracle : Oracle) (ctx : AgentContext)
    (u : String) :
    ∀ (fuel i : Nat) (st : AgentLoopState),
      (∀ j, j < fuel → okNamed (oracle (i + j)) = true) →
      (∀ j, j < fuel →
        crashAt parse oracle ctx (i + j)
          (iterFrom parse oracle ctx i j st) = false) →
      (loop parse oracle ctx u fuel i st).1 = (iterFrom parse oracle ctx i fuel st).db
        ∧ (loop parse oracle ctx u fuel i st).2.2
          = some (mkResult fallbackReply (iterFrom parse oracle ctx i fuel st)) := by
  intro fuel
  induction fuel with
  | zero =>
    intro i st _ _
    rw [agentLoop_zero]
    exact ⟨rfl, rfl⟩
  | succ fuel ih =>
    intro i st hok hcr
    have h0 := hok 0 (Nat.succ_pos fuel)
    have hc0 := hcr 0 (Nat.succ_pos fuel)
    rw [Nat.add_zero] at h0 hc0
    rw [show iterFrom parse oracle ctx i 0 st = st from rfl] at hc0
    cases horacle : oracle i with
    | failure ds =>
      rw [horacle] at h0
      simp [okNamed] at h0
    | ok ds =>
      rw [horacle] at h0
      simp only [okNamed, Bool.not_eq_true'] at h0
      rw [agentLoop_tools parse oracle ctx u fuel i st ds horacle h0 hc0]
      have hiter : iterFrom parse oracle ctx i (fuel + 1) st
          = iterFrom parse oracle ctx (i + 1) fuel (stepAt parse oracle ctx i st) := by
        rw [iterFrom]
      have hok' : ∀ j, j < fuel → okNamed (oracle (i + 1 + j)) = true := by
        intro j hj
        have := hok (j + 1) (Nat.succ_lt_succ hj)
        rwa [show i + (j + 1) = i + 1 + j by omega] at this
      have hcr' : ∀ j, j < fuel →
          crashAt parse oracle ctx (i + 1 + j)
            (iterFrom parse oracle ctx (i + 1) j (stepAt parse oracle ctx i st)) = false := by
        intro j hj
        have := hcr (j + 1) (Nat.succ_lt_succ hj)
        rw [show i + (j + 1) = i + 1 + j by omega] at this
        rwa [show iterFrom parse oracle ctx i (j + 1) st
          = iterFrom parse oracle ctx (i + 1) j (stepAt parse oracle ctx i st) from rfl] at this
      have := ih (i + 1) (stepAt parse oracle ctx i st) hok' hcr'
      rw [hiter]
      exact this

end Interview

/-- C1: after a successful section update with non-empty content, the
document completeness is exactly `round(100 * filledCount / totalKeys)`
(13 keys for the interview PRD, 4 for the intake document), where a
section is filled iff its content is non-empty after trimming; and
completeness is monotonically non-decreasing as more distinct sections
become filled. -/
theorem c1_completeness_formula :
    (∀ (s : List (String × String)) (k c : String),
        k ∈ Interview.PRD_SECTION_KEYS → c ≠ "" →
        Interview.calcCompleteness (objSet s k c)
          = ⌊(100 * (Interview.filledCount (objSet s k c) : ℚ) / 13 + 1 / 2 : ℚ)⌋₊)
  ∧ (∀ (d : Intake.IntakeData) (k c : String),
        k ∈ Intake.INTAKE_KEYS → c ≠ "" →
        Intake.calcCompleteness (d.set k c)
          = ⌊(100 * (Intake.filledCount (d.set k c) : ℚ) / 4 + 1 / 2 : ℚ)⌋₊)
  ∧ (∀ s s' : List (String × String),
        (∀ k ∈ Interview.PRD_SECTION_KEYS,
          Interview.sectionFilled s k = true → Interview.sectionFilled s' k = true) →
        Interview.calcCompleteness s ≤ Interview.calcCompleteness s')
  ∧ (∀ d d' : Intake.IntakeData,
        (∀ k ∈ Intake.INTAKE_KEYS,
          jsTrim (Intake.IntakeData.get d k) ≠ "" →
            jsTrim (Intake.IntakeData.get d' k) ≠ "") →
        Intake.calcCompleteness d ≤ Intake.calcCompleteness d') := by
  refine ⟨?_, ?_, ?_, ?_⟩
  · intro s k c _ _
    unfold Interview.calcCompleteness
    rw [show Interview.PRD_SECTION_KEYS.length = 13 from rfl,
        jsRoundPct_spec _ 13 (by norm_num)]
    norm_num
  · intro d k c _ _
    unfold Intake.calcCompleteness
    rw [show Intake.INTAKE_KEYS.length = 4 from rfl,
        jsRoundPct_spec _ 4 (by norm_num)]
    norm_num
  · intro s s' h
    unfold Interview.calcCompleteness
    exact jsRoundPct_mono _ _ _ (filter_length_mono _ _ _ h)
  · intro d d' h
    unfold Intake.calcCompleteness
    refine jsRoundPct_mono _ _ _ (filter_length_mono _ _ _ ?_)
    intro k hk hfk
    have h1 : jsTrim (Intake.IntakeData.get d k) ≠ "" := by
      simpa using hfk
    simpa using h k hk h1

/-- Closed instance of the C1 hypotheses, via the theorem itself. -/
theorem c1_completeness_formula_witness :
    (("asIs" ∈ Interview.PRD_SECTION_KEYS ∧ ("手動流程" : String) ≠ "") ∧
      Interview.calcCompleteness (objSet [("background", "b")] "asIs" "手動流程")
        = ⌊(100 * (Interview.filledCount (objSet [("background", "b")] "asIs" "手動流程") : ℚ) / 13
            + 1 / 2 : ℚ)⌋₊) ∧
    (("painPoints" ∈ Intake.INTAKE_KEYS ∧ ("報表很慢" : String) ≠ "") ∧
      Intake.calcCompleteness (Intake.IntakeData.set Intake.emptyIntakeData "painPoints" "報表很慢")
        = ⌊(100 * (Intake.filledCount
            (Intake.IntakeData.set Intake.emptyIntakeData "painPoints" "報表很慢") : ℚ) / 4
            + 1 / 2 : ℚ)⌋₊) :=
  ⟨⟨⟨by decide, by decide⟩,
    c1_completeness_formula.1 [("background", "b")] "asIs" "手動流程" (by decide) (by decide)⟩,
   ⟨⟨by decide, by decide⟩,
    c1_completeness_formula.2.1 Intake.emptyIntakeData "painPoints" "報表很慢"
      (by decide) (by decide)⟩⟩

/-- C7: per-IP admission control with cap 3 per hour window: a fresh IP
gets a window of count 1; attempts below the cap within the window are
counted and admitted; the attempt at the cap is rejected and creates no
session; once `now > resetAt` the window resets and the attempt is
admitted again.  The four-attempt scenario from a fresh IP admits exactly
the first three. -/
theorem c7_rate_limit :
    (Sock.INTAKE_MAX_SESSIONS_PER_HOUR = 3)
  ∧ (∀ t : Nat, Sock.rateCheck none t = ({ count := 1, resetAt := t + 3600000 }, true))
  ∧ (∀ (e : Sock.RateEntry) (t : Nat), ¬ t > e.resetAt → e.count < 3 →
      Sock.rateCheck (some e) t = ({ count := e.count + 1, resetAt := e.resetAt }, true))
  ∧ (∀ (e : Sock.RateEntry) (t : Nat), ¬ t > e.resetAt → e.count ≥ 3 →
      Sock.rateCheck (some e) t = (e, false))
  ∧ (∀ (e : Sock.RateEntry) (t : Nat), t > e.resetAt →
      Sock.rateCheck (some e) t = ({ count := 1, resetAt := t + 3600000 }, true))
  ∧ (∀ t : Nat,
      (Sock.rateCheck none t).2 = true
      ∧ (Sock.rateCheck (some (Sock.rateCheck none t).1) t).2 = true
      ∧ (Sock.rateCheck (some (Sock.rateCheck (some (Sock.rateCheck none t).1) t).1) t).2 = true
      ∧ (Sock.rateCheck (some (Sock.rateCheck (some (Sock.rateCheck
          (some (Sock.rateCheck none t).1) t).1) t).1) t).2 = false)
  ∧ (∀ (st : Sock.ServerState) (ip : String) (now : Nat) (fid : String) (stt : Bool),
      (Sock.rateCheck (mget st.intakeRateMap ip) now).2 = false →
        (Sock.intakeStart st ip now fid stt).1.intakeSessions = st.intakeSessions
        ∧ (Sock.intakeStart st ip now fid stt).2.1 = none
        ∧ (Sock.intakeStart st ip now fid stt).2.2
            = [.intakeErrorEvt "操作過於頻繁，請稍後再試"])
  ∧ (∀ (st : Sock.ServerState) (ip : String) (now : Nat) (fid : String) (stt : Bool),
      (Sock.rateCheck (mget st.intakeRateMap ip) now).2 = true →
        (Sock.intakeStart st ip now fid stt).1.intakeSessions
            = mset st.intakeSessions fid (Intake.freshSession now)
        ∧ (Sock.intakeStart st ip now fid stt).2.1 = some fid) := by
  have hfresh : ∀ t : Nat,
      Sock.rateCheck none t = ({ count := 1, resetAt := t + 3600000 }, true) := by
    intro t
    rfl
  have hcount : ∀ (e : Sock.RateEntry) (t : Nat), ¬ t > e.resetAt → e.count < 3 →
      Sock.rateCheck (some e) t = ({ count := e.count + 1, resetAt := e.resetAt }, true) := by
    intro e t h1 h2
    unfold Sock.rateCheck
    dsimp only
    rw [if_neg h1, if_neg (by simp [Sock.INTAKE_MAX_SESSIONS_PER_HOUR]; omega)]
  have hreject : ∀ (e : Sock.RateEntry) (t : Nat), ¬ t > e.resetAt → e.count ≥ 3 →
      Sock.rateCheck (some e) t = (e, false) := by
    intro e t h1 h2
    unfold Sock.rateCheck
    dsimp only
    rw [if_neg h1, if_pos (by simpa [Sock.INTAKE_MAX_SESSIONS_PER_HOUR] using h2)]
  have hreset : ∀ (e : Sock.RateEntry) (t : Nat), t > e.resetAt →
      Sock.rateCheck (some e) t = ({ count := 1, resetAt := t + 3600000 }, true) := by
    intro e t h1
    unfold Sock.rateCheck
    dsimp only
    rw [if_pos h1, if_neg (by simp [Sock.INTAKE_MAX_SESSIONS_PER_HOUR])]
  refine ⟨rfl, hfresh, hcount, hreject, hreset, ?_, ?_, ?_⟩
  · intro t
    have hnot : ∀ c : Nat, ¬ t > ((⟨c, t + 3600000⟩ : Sock.RateEntry)).resetAt := by
      intro c
      simp
    rw [hfresh t]
    rw [hcount ⟨1, t + 3600000⟩ t (hnot 1) (by norm_num)]
    rw [hcount ⟨2, t + 3600000⟩ t (hnot 2) (by norm_num)]
    rw [hreject ⟨3, t + 3600000⟩ t (hnot 3) (by norm_num)]
    exact ⟨rfl, rfl, rfl, rfl⟩
  · intro st ip now fid stt h
    unfold Sock.intakeStart
    rw [if_neg (by simp [h])]
    exact ⟨rfl, rfl, rfl⟩
  · intro st ip now fid stt h
    unfold Sock.intakeStart
    rw [if_pos h]
    exact ⟨rfl, rfl⟩

/-- Closed instance of the C7 hypotheses, via the theorem itself. -/
theorem c7_rate_limit_witness :
    (¬ (50 : Nat) > 3600000 ∧ (2 : Nat) < 3 ∧
      Sock.rateCheck (some ⟨2, 3600000⟩) 50 = (⟨3, 3600000⟩, true)) ∧
    ((70 : Nat) > 60 ∧
      Sock.rateCheck (some ⟨3, 60⟩) 70 = (⟨1, 70 + 3600000⟩, true)) :=
  ⟨⟨by decide, by decide, c7_rate_limit.2.2.1 ⟨2, 3600000⟩ 50 (by decide) (by decide)⟩,
   ⟨by decide, c7_rate_limit.2.2.2.2.1 ⟨3, 60⟩ 70 (by decide)⟩⟩

/-- C8: one sweep run retains exactly the intake sessions whose idle time
is within the TTL (5 minutes) and removes the rest; interview session
state (histories, counters, audio buffers, recordings, database) is never
touched by the sweep. -/
theorem c8_sweep_ttl :
    (Intake.SESSION_TTL_MS = 300000 ∧ Intake.SWEEP_INTERVAL_MS = 60000)
  ∧ (∀ (now : Nat) (st : Sock.ServerState) (id : String) (s : Intake.IntakeSession),
      ((id, s) ∈ (Sock.sweepState now st).intakeSessions ↔
        (id, s) ∈ st.intakeSessions ∧ now - s.lastActivity ≤ Intake.SESSION_TTL_MS))
  ∧ (∀ (now : Nat) (st : Sock.ServerState),
      (Sock.sweepState now st).sessionHistories = st.sessionHistories
      ∧ (Sock.sweepState now st).sessionSeqCounters = st.sessionSeqCounters
      ∧ (Sock.sweepState now st).sessionAudioBuffers = st.sessionAudioBuffers
      ∧ (Sock.sweepState now st).sessionRecordings = st.sessionRecordings
      ∧ (Sock.sweepState now st).db = st.db
      ∧ (Sock.sweepState now st).intakeRateMap = st.intakeRateMap) := by
  refine ⟨⟨rfl, rfl⟩, ?_, ?_⟩
  · intro now st id s
    unfold Sock.sweepState Intake.sweep
    simp only [List.mem_filter, Bool.not_eq_true', decide_eq_false_iff_not, Nat.not_lt]
  · intro now st
    exact ⟨rfl, rfl, rfl, rfl, rfl, rfl⟩

/-- C9 as stated is false: on disconnect the interview session's
conversation history is NOT discarded — the handler deletes only the two
audio accumulators (`sessionAudioBuffers`, `sessionRecordings`); the
`sessionHistories` entry survives.  Concrete run: a connection joined to
interview session 1 disconnects after the archive is flushed, and the
session's history is still present afterwards. -/
theorem c9_disconnect_counterexample :
    (Sock.disconnectHandler
      { intakeRateMap := [], intakeSessions := [],
        sessionHistories := [(1, [ChatMsg.user "如何改善流程"])],
        sessionSeqCounters := [(1, 2)],
        sessionAudioBuffers := [(1, [[7, 8]])],
        sessionRecordings := [(1, [[7, 8]])],
        db := { prdRows := [], nextPrdId := 1, events := [], transcripts := [],
                leads := [], cases := [], artifacts := [] } }
      { intakeClientId := none, currentSessionId := some 1, currentCaseId := some 4 }
      1000).sessionHistories = [(1, [ChatMsg.user "如何改善流程"])] := by rfl

/-- C9 amended: on disconnect the intake session is deleted from the
registry; for a joined interview session the accumulated full recording
is flushed as an artifact (when non-empty) and both audio accumulators
are deleted, but the in-memory conversation history map is retained, not
discarded. -/
theorem c9_disconnect_amended :
    ∀ (st : Sock.ServerState) (c : Sock.ConnState) (now : Nat),
      (∀ cid, c.intakeClientId = some cid →
        (Sock.disconnectHandler st c now).intakeSessions = mdel st.intakeSessions cid)
    ∧ (∀ sid caseId, c.currentSessionId = some sid → c.currentCaseId = some caseId →
        (Sock.disconnectHandler st c now).sessionAudioBuffers = mdel st.sessionAudioBuffers sid
        ∧ (Sock.disconnectHandler st c now).sessionRecordings = mdel st.sessionRecordings sid)
    ∧ (Sock.disconnectHandler st c now).sessionHistories = st.sessionHistories
    ∧ (∀ sid caseId rec, c.currentSessionId = some sid → c.currentCaseId = some caseId →
        mget st.sessionRecordings sid = some rec → rec ≠ [] →
        (Sock.disconnectHandler st c now).db.artifacts = st.db.artifacts ++
          [{ caseId := caseId,
             filename := "recording_session_" ++ toString sid ++ "_" ++ toString now ++ ".webm",
             mimeType := "audio/webm",
             sizeBytes := rec.flatten.length,
             storagePath := "data/artifacts/" ++
               ("recording_session_" ++ toString sid ++ "_" ++ toString now ++ ".webm") }]) := by
  intro st c now
  obtain ⟨ic, csid, ccid⟩ := c
  refine ⟨?_, ?_, ?_, ?_⟩
  · intro cid h
    cases ic with
    | none => cases h
    | some cid0 =>
      cases h
      cases csid <;> cases ccid
      all_goals simp only [Sock.disconnectHandler]
      all_goals (repeat' split)
      all_goals rfl
  · intro sid caseId h1 h2
    cases csid with
    | none => cases h1
    | some sid0 =>
      cases h1
      cases ccid with
      | none => cases h2
      | some caseId0 =>
        cases h2
        cases ic
        all_goals simp only [Sock.disconnectHandler]
        all_goals (repeat' split)
        all_goals exact ⟨rfl, rfl⟩
  · cases ic <;> cases csid <;> cases ccid
    all_goals simp only [Sock.disconnectHandler]
    all_goals (repeat' split)
    all_goals rfl
  · intro sid caseId rec h1 h2 h3 h4
    cases csid with
    | none => cases h1
    | some sid0 =>
      cases h1
      cases ccid with
      | none => cases h2
      | some caseId0 =>
        cases h2
        have h5 : rec.isEmpty = false := by
          simpa [List.isEmpty_iff] using h4
        cases ic
        all_goals simp only [Sock.disconnectHandler, h3, h5]
        all_goals rfl

/-- Closed instance of the C9 amended hypotheses, via the theorem itself. -/
theorem c9_disconnect_amended_witness :
    ((({ intakeClientId := some "cid", currentSessionId := none,
         currentCaseId := none } : Sock.ConnState).intakeClientId = some "cid") ∧
      (Sock.disconnectHandler
        { intakeRateMap := [], intakeSessions := [("cid", Intake.freshSession 5)],
          sessionHistories := [], sessionSeqCounters := [],
          sessionAudioBuffers := [], sessionRecordings := [],
          db := { prdRows := [], nextPrdId := 1, events := [], transcripts := [],
                  leads := [], cases := [], artifacts := [] } }
        { intakeClientId := some "cid", currentSessionId := none, currentCaseId := none }
        9).intakeSessions
        = mdel [("cid", Intake.freshSession 5)] "cid") :=
  ⟨rfl,
   (c9_disconnect_amended
      { intakeRateMap := [], intakeSessions := [("cid", Intake.freshSession 5)],
        sessionHistories := [], sessionSeqCounters := [],
        sessionAudioBuffers := [], sessionRecordings := [],
        db := { prdRows := [], nextPrdId := 1, events := [], transcripts := [],
                leads := [], cases := [], artifacts := [] } }
      { intakeClientId := some "cid", currentSessionId := none, currentCaseId := none }
      9).1 "cid" rfl⟩

/-- C4 as stated is false for the intake document: `update_intake` with a
payload naming only a key outside the enumeration is silently ignored —
the document is unchanged but the dispatcher returns a SUCCESS payload
with an empty `updated` list, not an error payload.  Concrete run shown
(JSON parse result supplied for the argument string `a`). -/
theorem c4_unknown_key_counterexample :
    Intake.execCall (fun _ => some [("budget", JVal.jstr "100萬")])
      (Intake.freshSession 0) { id := "call_9", name := "update_intake", arguments := "a" }
      = (Intake.freshSession 0,
         [ChatMsg.tool "call_9"
           "\x7b\"success\":true,\"updated\":[],\"completeness\":0\x7d"]) := by decide

/-- C4 amended: a document write naming a section key outside the known
enumeration never changes the document and never crashes the turn, but
the two dispatchers answer differently: the interview dispatcher rejects
`update_prd_section` with the error payload
`\x7b"success":false,"error":"Invalid section key"\x7d`, while the intake
dispatcher ignores the unknown keys of `update_intake` and returns a
success payload whose `updated` list is empty. -/
theorem c4_unknown_key_amended :
    (∀ (parse : ArgsParse) (ctx : Interview.AgentContext)
        (st : Interview.AgentLoopState) (tc : RawCall) (args : ArgsMap) (k : String),
      tc.name = "update_prd_section" → parse tc.arguments = some args →
      argGet args "sectionKey" = some (JVal.jstr k) →
      k ∉ Interview.PRD_SECTION_KEYS →
      Interview.execCall parse ctx st tc
        = .ok { st with
                allToolCalls := st.allToolCalls ++ [(tc.name, args)]
                messages := st.messages ++ [ChatMsg.tool tc.id Interview.invalidKeyResult] })
  ∧ (∀ (parse : ArgsParse) (s : Intake.IntakeSession) (tc : RawCall) (args : ArgsMap),
      tc.name = "update_intake" → parse tc.arguments = some args →
      (∀ k ∈ Intake.INTAKE_KEYS, argGet args k = none) →
      Intake.execCall parse s tc
        = (s, [ChatMsg.tool tc.id
            (Intake.updateResult [] (Intake.calcCompleteness s.data))])) := by
  constructor
  · intro parse ctx st tc args k hname hp hk hknot
    have hcontains : Interview.PRD_SECTION_KEYS.contains k = false := by
      simpa using hknot
    unfold Interview.execCall
    rw [hname, hp]
    rw [if_neg (by decide)]
    simp only [Option.getD_some]
    rw [if_pos (by decide)]
    rw [hk]
    rcases hc : argGet args "content" with _ | v
    · rfl
    · cases v with
      | jstr c =>
        dsimp only
        rw [if_neg (by simp [hknot])]
      | jarr l =>
        dsimp only
        rw [if_neg (by simp [hknot])]
      | jother t r =>
        dsimp only
        rw [if_neg (by simp [hknot])]
  · intro parse s tc args hname hp hnone
    have hupd : Intake.applyUpdate s.data args = (s.data, []) := by
      have h1 := hnone "background" (by simp [Intake.INTAKE_KEYS])
      have h2 := hnone "currentState" (by simp [Intake.INTAKE_KEYS])
      have h3 := hnone "painPoints" (by simp [Intake.INTAKE_KEYS])
      have h4 := hnone "expectedOutcome" (by simp [Intake.INTAKE_KEYS])
      unfold Intake.applyUpdate Intake.INTAKE_KEYS
      simp [h1, h2, h3, h4]
    unfold Intake.execCall
    rw [hname, hp]
    rw [if_neg (by decide)]
    simp only [Option.getD_some]
    rw [if_pos (by decide), hupd]

/-- Closed instance of the C4 amended hypotheses, via the theorem itself. -/
theorem c4_unknown_key_amended_witness :
    (("deliverables" : String) ∉ Interview.PRD_SECTION_KEYS) ∧
    Interview.execCall (fun _ => some [("sectionKey", JVal.jstr "deliverables")])
      { caseId := 1, sessionId := 2, leadContext := "" }
      { db := { prdRows := [], nextPrdId := 1, events := [], transcripts := [],
                leads := [], cases := [], artifacts := [] },
        prdId := 1, prdSections := [], prdUpdated := false, agentSummary := none,
        allToolCalls := [], messages := [] }
      { id := "c1", name := "update_prd_section", arguments := "x" }
      = .ok { db := { prdRows := [], nextPrdId := 1, events := [], transcripts := [],
                      leads := [], cases := [], artifacts := [] },
              prdId := 1, prdSections := [], prdUpdated := false, agentSummary := none,
              allToolCalls := [("update_prd_section", [("sectionKey", JVal.jstr "deliverables")])],
              messages := [ChatMsg.tool "c1" Interview.invalidKeyResult] } :=
  ⟨by decide,
   c4_unknown_key_amended.1 (fun _ => some [("sectionKey", JVal.jstr "deliverables")])
     { caseId := 1, sessionId := 2, leadContext := "" }
     { db := { prdRows := [], nextPrdId := 1, events := [], transcripts := [],
               leads := [], cases := [], artifacts := [] },
       prdId := 1, prdSections := [], prdUpdated := false, agentSummary := none,
       allToolCalls := [], messages := [] }
     { id := "c1", name := "update_prd_section", arguments := "x" }
     [("sectionKey", JVal.jstr "deliverables")] "deliverables"
     rfl rfl rfl (by decide)⟩

/-- C2: a backend call failure aborts the turn and leaves the session's
conversation history exactly as it was (no user or assistant message is
appended), and the transport emits a user-visible error event — for the
intake agent (`runCore` result `none`, `intakeMessage` handler) and for
the interview agent (`interviewTurn` result `none`, `handleUserMessage`
handler), so the user may retry the same message. -/
theorem c2_backend_failure_history :
    (∀ (parse : ArgsParse) (oracle : Oracle) (now : Nat)
        (s : Intake.IntakeSession) (u : String),
       (Intake.runCore parse oracle now s u).2.2 = none →
       (Intake.runCore parse oracle now s u).1.messages = s.messages)
  ∧ (∀ (parse : ArgsParse) (oracle : Oracle) (now : Nat) (st : Sock.ServerState)
        (cid : String) (s : Intake.IntakeSession) (u : String),
       mget st.intakeSessions cid = some s →
       s.turnCount < Sock.INTAKE_MAX_TURNS →
       (Intake.runCore parse oracle now { s with lastActivity := now } u).2.2 = none →
       (∃ s', mget (Sock.intakeMessage parse oracle now st (some cid) u).1.intakeSessions cid
            = some s' ∧ s'.messages = s.messages)
       ∧ Sock.OutEvent.intakeErrorEvt "處理錯誤，請重試"
           ∈ (Sock.intakeMessage parse oracle now st (some cid) u).2)
  ∧ (∀ (parse : ArgsParse) (oracle : Oracle) (st : Sock.ServerState)
        (sid caseId : Nat) (u : String),
       (Sock.interviewTurn parse oracle st sid caseId u).2.2 = none →
       (Sock.handleUserMessage parse oracle st sid caseId u).1.sessionHistories
           = st.sessionHistories
       ∧ Sock.OutEvent.errorEvt "Agent 處理錯誤，請重試"
           ∈ (Sock.handleUserMessage parse oracle st sid caseId u).2) := by
  have part1 : ∀ (parse : ArgsParse) (oracle : Oracle) (now : Nat)
      (s : Intake.IntakeSession) (u : String),
      (Intake.runCore parse oracle now s u).2.2 = none →
      (Intake.runCore parse oracle now s u).1.messages = s.messages := by
    intro parse oracle now s u h
    unfold Intake.runCore at h ⊢
    exact Intake.loop_none_messages parse oracle u _ _ _ _ h
  refine ⟨part1, ?_, ?_⟩
  · intro parse oracle now st cid s u hs hq h3
    have hquota : ¬ ({ s with lastActivity := now } : Intake.IntakeSession).turnCount
        ≥ Sock.INTAKE_MAX_TURNS := by
      simpa using Nat.not_le.mpr hq
    unfold Sock.intakeMessage Intake.getIntakeSession Intake.runIntakeAgent
    dsimp only
    rw [hs]
    dsimp only
    rw [if_neg hquota]
    rw [mget_mset_self]
    dsimp only
    rcases hr : Intake.runCore parse oracle now { s with lastActivity := now } u
      with ⟨s2, streamed, res⟩
    rw [hr] at h3
    dsimp only at h3
    cases h3
    dsimp only
    constructor
    · refine ⟨s2, ?_, ?_⟩
      · rw [mget_mset_self]
      · have := part1 parse oracle now { s with lastActivity := now } u (by rw [hr])
        rw [hr] at this
        exact this
    · simp
  · intro parse oracle st sid caseId u h
    unfold Sock.handleUserMessage
    rcases hr : Sock.interviewTurn parse oracle st sid caseId u with ⟨db2, streamed, res⟩
    rw [hr] at h
    dsimp only at h
    cases h
    dsimp only
    exact ⟨rfl, by simp⟩

/-- Closed instance of the C2 hypotheses, via the theorem itself. -/
theorem c2_backend_failure_history_witness :
    ((Intake.runCore (fun _ => none) (fun _ => ModelResp.failure []) 77
        (Intake.freshSession 0) "你好").2.2 = none) ∧
    ((Intake.runCore (fun _ => none) (fun _ => ModelResp.failure []) 77
        (Intake.freshSession 0) "你好").1.messages = (Intake.freshSession 0).messages) :=
  ⟨rfl,
   c2_backend_failure_history.1 (fun _ => none) (fun _ => ModelResp.failure []) 77
     (Intake.freshSession 0) "你好" rfl⟩

/-- C10: every intake turn increments the session's `turnCount` exactly
once before the first backend call is attempted — also when the backend
call then fails — and the `intakeMessage` handler rejects a session whose
`turnCount` has reached the 10-turn quota before any model call, so a
failed turn still consumes quota. -/
theorem c10_turn_quota :
    (Sock.INTAKE_MAX_TURNS = 10)
  ∧ (∀ (parse : ArgsParse) (oracle : Oracle) (now : Nat)
        (s : Intake.IntakeSession) (u : String),
       (Intake.runCore parse oracle now s u).1.turnCount = s.turnCount + 1)
  ∧ (∀ (parse : ArgsParse) (oracle : Oracle) (now : Nat)
        (s : Intake.IntakeSession) (u : String) (ds : List StreamDelta),
       oracle 0 = .failure ds →
       (Intake.runCore parse oracle now s u).2.2 = none)
  ∧ (∀ (parse : ArgsParse) (oracle : Oracle) (now : Nat) (st : Sock.ServerState)
        (cid : String) (s : Intake.IntakeSession) (u : String),
       mget st.intakeSessions cid = some s →
       s.turnCount ≥ Sock.INTAKE_MAX_TURNS →
       Sock.intakeMessage parse oracle now st (some cid) u
         = ({ st with
              intakeSessions := mset st.intakeSessions cid { s with lastActivity := now } },
            [Sock.OutEvent.intakeErrorEvt "已達對話上限，請繼續填寫報名表"])) := by
  refine ⟨rfl, ?_, ?_, ?_⟩
  · intro parse oracle now s u
    unfold Intake.runCore
    rw [Intake.loop_turnCount]
  · intro parse oracle now s u ds h
    unfold Intake.runCore
    rw [show Intake.MAX_TOOL_ITERATIONS = 2 + 1 from rfl]
    rw [Intake.loop_fail parse oracle u 2 0 _ _ ds h]
  · intro parse oracle now st cid s u hs hq
    have hquota : ({ s with lastActivity := now } : Intake.IntakeSession).turnCount
        ≥ Sock.INTAKE_MAX_TURNS := by
      simpa using hq
    unfold Sock.intakeMessage Intake.getIntakeSession
    dsimp only
    rw [hs]
    dsimp only
    rw [if_pos hquota]

/-- Closed instance of the C10 hypotheses, via the theorem itself. -/
theorem c10_turn_quota_witness :
    (((fun _ => ModelResp.failure []) : Oracle) 0 = ModelResp.failure []) ∧
    ((Intake.runCore (fun _ => none) (fun _ => ModelResp.failure []) 3
        { Intake.freshSession 0 with turnCount := 9 } "再試一次").2.2 = none) ∧
    ((Intake.runCore (fun _ => none) (fun _ => ModelResp.failure []) 3
        { Intake.freshSession 0 with turnCount := 9 } "再試一次").1.turnCount = 9 + 1) :=
  ⟨rfl,
   c10_turn_quota.2.2.1 (fun _ => none) (fun _ => ModelResp.failure []) 3
     { Intake.freshSession 0 with turnCount := 9 } "再試一次" [] rfl,
   c10_turn_quota.2.1 (fun _ => none) (fun _ => ModelResp.failure []) 3
     { Intake.freshSession 0 with turnCount := 9 } "再試一次"⟩

/-- C6: a turn whose first model response contains no named tool call
appends exactly two entries to the session history — the user message
then the assistant reply — and leaves the structured document unchanged:
for intake, `data`/`isComplete`/`summary` are untouched; for interview,
the only database effect is the `llm_response` event (the PRD row is not
written and `prdUpdated` is false), and `handleUserMessage` extends the
session history by exactly the user and assistant messages. -/
theorem c6_zero_toolcall_turn :
    (∀ (parse : ArgsParse) (oracle : Oracle) (now : Nat)
        (s : Intake.IntakeSession) (u : String) (ds : List StreamDelta),
       oracle 0 = .ok ds →
       noNamedCalls (consumeStream ds).2 = true →
       (Intake.runCore parse oracle now s u).1.messages
           = s.messages ++ [ChatMsg.user u, ChatMsg.assistant (some (consumeStream ds).1) []]
       ∧ (Intake.runCore parse oracle now s u).1.data = s.data
       ∧ (Intake.runCore parse oracle now s u).1.isComplete = s.isComplete
       ∧ (Intake.runCore parse oracle now s u).1.summary = s.summary
       ∧ (Intake.runCore parse oracle now s u).2.2
           = some (Intake.mkResult (consumeStream ds).1 (Intake.runCore parse oracle now s u).1))
  ∧ (∀ (parse : ArgsParse) (oracle : Oracle) (db : Interview.InterviewDb)
        (ctx : Interview.AgentContext) (history : List ChatMsg) (u : String)
        (ds : List StreamDelta),
       oracle 0 = .ok ds →
       noNamedCalls (consumeStream ds).2 = true →
       Interview.runAgent parse oracle db ctx history u
         = ({ (Interview.getOrCreateDraftPrd db ctx.caseId).1 with
              events := (Interview.getOrCreateDraftPrd db ctx.caseId).1.events ++
                [{ caseId := ctx.caseId, sessionId := ctx.sessionId,
                   eventType := "llm_response",
                   payload := .llmResponse "deepseek-chat" ((consumeStream ds).1.take 500) }] },
            contentChunks ds,
            some { reply := (consumeStream ds).1, prdUpdated := false,
                   summary := none, toolCalls := [] }))
  ∧ (∀ (parse : ArgsParse) (oracle : Oracle) (st : Sock.ServerState)
        (sid caseId : Nat) (u : String) (ds : List StreamDelta),
       oracle 0 = .ok ds →
       noNamedCalls (consumeStream ds).2 = true →
       (Sock.handleUserMessage parse oracle st sid caseId u).1.sessionHistories
         = mset st.sessionHistories sid
             (Sock.historyOf st sid ++
               [ChatMsg.user u, ChatMsg.assistant (some (consumeStream ds).1) []])) := by
  have part2 : ∀ (parse : ArgsParse) (oracle : Oracle) (db : Interview.InterviewDb)
      (ctx : Interview.AgentContext) (history : List ChatMsg) (u : String)
      (ds : List StreamDelta),
      oracle 0 = .ok ds →
      noNamedCalls (consumeStream ds).2 = true →
      Interview.runAgent parse oracle db ctx history u
        = ({ (Interview.getOrCreateDraftPrd db ctx.caseId).1 with
             events := (Interview.getOrCreateDraftPrd db ctx.caseId).1.events ++
               [{ caseId := ctx.caseId, sessionId := ctx.sessionId,
                  eventType := "llm_response",
                  payload := .llmResponse "deepseek-chat" ((consumeStream ds).1.take 500) }] },
           contentChunks ds,
           some { reply := (consumeStream ds).1, prdUpdated := false,
                  summary := none, toolCalls := [] }) := by
    intro parse oracle db ctx history u ds h hterm
    unfold Interview.runAgent
    rw [show Interview.MAX_TOOL_ITERATIONS = 4 + 1 from rfl]
    rw [Interview.agentLoop_done parse oracle ctx u 4 0 _ ds h hterm]
    rfl
  refine ⟨?_, part2, ?_⟩
  · intro parse oracle now s u ds h hterm
    unfold Intake.runCore
    rw [show Intake.MAX_TOOL_ITERATIONS = 2 + 1 from rfl]
    rw [Intake.loop_done parse oracle u 2 0 _ _ ds h hterm]
    exact ⟨rfl, rfl, rfl, rfl, rfl⟩
  · intro parse oracle st sid caseId u ds h hterm
    unfold Sock.handleUserMessage
    have h2 := part2 parse oracle (Sock.dbAfterUserLine st sid u)
      (Sock.agentCtxFor st sid caseId u) (Sock.historyOf st sid) u ds h hterm
    unfold Sock.interviewTurn
    rw [h2]

/-- Closed instance of the C6 hypotheses, via the theorem itself. -/
theorem c6_zero_toolcall_turn_witness :
    (((fun _ => ModelResp.ok [{ content := some "請說明貴公司的背景" }]) : Oracle) 0
        = ModelResp.ok [{ content := some "請說明貴公司的背景" }]) ∧
    (noNamedCalls (consumeStream [{ content := some "請說明貴公司的背景" }]).2 = true) ∧
    ((Intake.runCore (fun _ => none)
        (fun _ => ModelResp.ok [{ content := some "請說明貴公司的背景" }]) 8
        (Intake.freshSession 0) "我想導入 AI").1.messages
      = (Intake.freshSession 0).messages ++
          [ChatMsg.user "我想導入 AI",
           ChatMsg.assistant
             (some (consumeStream [{ content := some "請說明貴公司的背景" }]).1) []]) :=
  ⟨rfl, by decide,
   ((c6_zero_toolcall_turn.1 (fun _ => none)
      (fun _ => ModelResp.ok [{ content := some "請說明貴公司的背景" }]) 8
      (Intake.freshSession 0) "我想導入 AI"
      [{ content := some "請說明貴公司的背景" }] rfl (by decide)).1)⟩

/-- C5: within one iteration that resolves N ≥ 1 named tool calls, the
model context is extended by one assistant message carrying the resolved
calls followed by exactly N tool-result messages in the stream-index
order the calls were declared (the accumulated array order), and this
extended context is exactly what the next model invocation receives; the
final reply reaches the session history only at the terminating
iteration, never through tool execution (tool execution leaves the
history untouched).  Both dispatchers satisfy the ordering. -/
theorem c5_toolresult_ordering :
    (∀ (parse : ArgsParse) (oracle : Oracle) (u : String) (fuel i : Nat)
        (s : Intake.IntakeSession) (msgs : List ChatMsg) (ds : List StreamDelta),
       oracle i = .ok ds →
       noNamedCalls (consumeStream ds).2 = false →
       Intake.loop parse oracle u (fuel + 1) i s msgs
         = ((Intake.loop parse oracle u fuel (i + 1)
               (Intake.execCalls parse s (consumeStream ds).2).1
               (msgs ++ [Intake.assistantCtxMsg (consumeStream ds).1 (consumeStream ds).2]
                 ++ (Intake.execCalls parse s (consumeStream ds).2).2)).1,
            contentChunks ds ++
              (Intake.loop parse oracle u fuel (i + 1)
               (Intake.execCalls parse s (consumeStream ds).2).1
               (msgs ++ [Intake.assistantCtxMsg (consumeStream ds).1 (consumeStream ds).2]
                 ++ (Intake.execCalls parse s (consumeStream ds).2).2)).2.1,
            (Intake.loop parse oracle u fuel (i + 1)
               (Intake.execCalls parse s (consumeStream ds).2).1
               (msgs ++ [Intake.assistantCtxMsg (consumeStream ds).1 (consumeStream ds).2]
                 ++ (Intake.execCalls parse s (consumeStream ds).2).2)).2.2))
  ∧ (∀ (parse : ArgsParse) (s : Intake.IntakeSession) (raw : List RawCall),
       (Intake.execCalls parse s raw).2.map chatToolId
           = (raw.filter (fun tc => tc.name != "")).map (fun tc => some tc.id)
       ∧ (Intake.execCalls parse s raw).2.length
           = (raw.filter (fun tc => tc.name != "")).length
       ∧ (Intake.execCalls parse s raw).1.messages = s.messages)
  ∧ (∀ (parse : ArgsParse) (ctx : Interview.AgentContext)
        (raw : List RawCall) (st st' : Interview.AgentLoopState),
       Interview.execCalls parse ctx st raw = (st', false) →
       ∃ tms, st'.messages = st.messages ++ tms ∧
         tms.map chatToolId
           = (raw.filter (fun tc => tc.name != "")).map (fun tc => some tc.id))
  ∧ (∀ (parse : ArgsParse) (oracle : Oracle) (ctx : Interview.AgentContext)
        (u : String) (fuel i : Nat) (st : Interview.AgentLoopState)
        (ds : List StreamDelta),
       oracle i = .ok ds →
       noNamedCalls (consumeStream ds).2 = false →
       Interview.crashAt parse oracle ctx i st = false →
       Interview.loop parse oracle ctx u (fuel + 1) i st
         = ((Interview.loop parse oracle ctx u fuel (i + 1)
               (Interview.stepAt parse oracle ctx i st)).1,
            contentChunks ds ++
              (Interview.loop parse oracle ctx u fuel (i + 1)
                (Interview.stepAt parse oracle ctx i st)).2.1,
            (Interview.loop parse oracle ctx u fuel (i + 1)
              (Interview.stepAt parse oracle ctx i st)).2.2)) := by
  refine ⟨?_, ?_, ?_, ?_⟩
  · intro parse oracle u fuel i s msgs ds h h2
    exact Intake.loop_tools parse oracle u fuel i s msgs ds h h2
  · intro parse s raw
    refine ⟨Intake.execCalls_toolIds parse s raw, ?_, Intake.execCalls_messages parse s raw⟩
    have := congrArg List.length (Intake.execCalls_toolIds parse s raw)
    simpa using this
  · intro parse ctx raw st st' h
    exact Interview.execCalls_ok_shape parse ctx raw st st' h
  · intro parse oracle ctx u fuel i st ds h h2 h3
    exact Interview.agentLoop_tools parse oracle ctx u fuel i st ds h h2 h3

/-- Closed instance of the C5 hypotheses, via the theorem itself. -/
theorem c5_toolresult_ordering_witness :
    ((Intake.execCalls (fun _ => none) (Intake.freshSession 0)
        [{ id := "a", name := "update_intake", arguments := "x" },
         { id := "", name := "", arguments := "" },
         { id := "b", name := "mark_complete", arguments := "y" }]).2.map chatToolId
      = (([{ id := "a", name := "update_intake", arguments := "x" },
           { id := "", name := "", arguments := "" },
           { id := "b", name := "mark_complete", arguments := "y" }] : List RawCall).filter
            (fun tc => tc.name != "")).map (fun tc => some tc.id)) :=
  (c5_toolresult_ordering.2.1 (fun _ => none) (Intake.freshSession 0)
    [{ id := "a", name := "update_intake", arguments := "x" },
     { id := "", name := "", arguments := "" },
     { id := "b", name := "mark_complete", arguments := "y" }]).1

/-- C3: when every iteration of a turn resolves named tool calls (and,
for the interview dispatcher, none of them throws), the loop exhausts
`MAX_TOOL_ITERATIONS` and returns the fixed fallback string as the reply,
while the session/database state equals the replay of all tool executions
of the turn — every document mutation already applied is preserved, none
is rolled back. -/
theorem c3_max_iterations_fallback :
    (∀ (parse : ArgsParse) (oracle : Oracle) (now : Nat)
        (s : Intake.IntakeSession) (u : String),
       (∀ j, j < Intake.MAX_TOOL_ITERATIONS → okNamed (oracle j) = true) →
       (Intake.runCore parse oracle now s u).1
           = { Intake.iterFrom parse oracle 0 Intake.MAX_TOOL_ITERATIONS
                 { s with lastActivity := now, turnCount := s.turnCount + 1 } with
               messages := (Intake.iterFrom parse oracle 0 Intake.MAX_TOOL_ITERATIONS
                 { s with lastActivity := now, turnCount := s.turnCount + 1 }).messages ++
                 [ChatMsg.user u, ChatMsg.assistant (some Intake.fallbackReply) []] }
       ∧ (Intake.runCore parse oracle now s u).2.2
           = some (Intake.mkResult Intake.fallbackReply (Intake.runCore parse oracle now s u).1))
  ∧ (∀ (parse : ArgsParse) (oracle : Oracle) (db : Interview.InterviewDb)
        (ctx : Interview.AgentContext) (history : List ChatMsg) (u : String),
       (∀ j, j < Interview.MAX_TOOL_ITERATIONS → okNamed (oracle j) = true) →
       (∀ j, j < Interview.MAX_TOOL_ITERATIONS →
         Interview.crashAt parse oracle ctx j
           (Interview.iterFrom parse oracle ctx 0 j
             (Interview.initLoopState db ctx history u)) = false) →
       (Interview.runAgent parse oracle db ctx history u).1
           = (Interview.iterFrom parse oracle ctx 0 Interview.MAX_TOOL_ITERATIONS
               (Interview.initLoopState db ctx history u)).db
       ∧ (Interview.runAgent parse oracle db ctx history u).2.2
           = some (Interview.mkResult Interview.fallbackReply
               (Interview.iterFrom parse oracle ctx 0 Interview.MAX_TOOL_ITERATIONS
                 (Interview.initLoopState db ctx history u)))) := by
  constructor
  · intro parse oracle now s u hok
    unfold Intake.runCore
    have h := Intake.loop_exhaust parse oracle u Intake.MAX_TOOL_ITERATIONS 0
      { s with lastActivity := now, turnCount := s.turnCount + 1 }
      ([ChatMsg.system (Intake.buildIntakeSystemPrompt
          ({ s with lastActivity := now, turnCount := s.turnCount + 1 } : Intake.IntakeSession).data)] ++
        ({ s with lastActivity := now, turnCount := s.turnCount + 1 } : Intake.IntakeSession).messages ++
        [ChatMsg.user u])
      (by intro j hj; simpa using hok j hj)
    refine ⟨h.1, ?_⟩
    rw [h.2, h.1]
  · intro parse oracle db ctx history u hok hcr
    unfold Interview.runAgent
    have h := Interview.agentLoop_exhaust parse oracle ctx u Interview.MAX_TOOL_ITERATIONS 0
      (Interview.initLoopState db ctx history u)
      (by intro j hj; simpa using hok j hj)
      (by intro j hj; simpa using hcr j hj)
    exact h

/-- Closed instance of the C3 hypotheses, via the theorem itself: an
oracle that issues the same named `update_intake` call on every
iteration exhausts the three intake iterations. -/
theorem c3_max_iterations_fallback_witness :
    ((∀ j, j < Intake.MAX_TOOL_ITERATIONS →
        okNamed ((fun _ => ModelResp.ok
          [{ tool_calls := [{ index := 0, id := "t", name := "update_intake",
                              arguments := "z" }] }]) j) = true)) ∧
    ((Intake.runCore (fun _ => some [("painPoints", JVal.jstr "每月結帳要三天")])
        (fun _ => ModelResp.ok
          [{ tool_calls := [{ index := 0, id := "t", name := "update_intake",
                              arguments := "z" }] }]) 4
        (Intake.freshSession 0) "我們結帳很慢").2.2
      = some (Intake.mkResult Intake.fallbackReply
          (Intake.runCore (fun _ => some [("painPoints", JVal.jstr "每月結帳要三天")])
            (fun _ => ModelResp.ok
              [{ tool_calls := [{ index := 0, id := "t", name := "update_intake",
                                  arguments := "z" }] }]) 4
            (Intake.freshSession 0) "我們結帳很慢").1)) :=
  ⟨by decide,
   (c3_max_iterations_fallback.1 (fun _ => some [("painPoints", JVal.jstr "每月結帳要三天")])
      (fun _ => ModelResp.ok
        [{ tool_calls := [{ index := 0, id := "t", name := "update_intake",
                            arguments := "z" }] }]) 4
      (Intake.freshSession 0) "我們結帳很慢" (by decide)).2⟩
